import Mathlib

/-!
# win_appbar.cpp: the AppBar lifecycle manager

A shallow embedding of `electron-softphone/native/win-appbar/src/win_appbar.cpp`.

* The process globals `g_appbars` (a `std::map<HWND, AppBarState>`) and
  `g_nextCallbackMsg` (a `UINT`) are fields of `Sys`, together with the
  rectangle of every window, which `GetWindowRect` reads and `MoveWindow`
  writes.
* The answers of the operating system during one call (`IsWindow`,
  `GetMonitorInfo`, `GetDeviceCaps`, the results of `SHAppBarMessage`) are
  the fields of `Env`; every exported function takes the `Env` of its call.
* Every call of `SHAppBarMessage` and `MoveWindow` is recorded, in order,
  in the list of `Event`s that the function returns.
* `int` and `LONG` values are 32-bit: the type `LONG` holds the integers from
  `-2 ^ 31` to `2 ^ 31 - 1`, its sums and differences wrap modulo `2 ^ 32`, and
  the conversion of a `double` outside that range gives `INT_MIN`, as the
  Windows build of the program computes them. `UINT` arithmetic wraps modulo
  `2 ^ 32`.
* `double` values are finite binary64 numbers with 53 significant bits and
  round-to-nearest-even; the exponent is not bounded, which is exact for the
  quotients and products of `int` values computed here.
* `SHAppBarMessage(ABM_QUERYPOS, &abd)` and `SHAppBarMessage(ABM_SETPOS, &abd)`
  may both rewrite `abd.rc`, which the program reads again after each call.
-/

set_option maxRecDepth 100000

namespace WinAppBar

/-! ## 32-bit integers -/

/-- The values of the C++ type `int` and of the Win32 type `LONG`, which are
the same 32-bit type on Windows. -/
structure LONG where
  val : Int
  inRange : -2147483648 ≤ val ∧ val ≤ 2147483647
deriving DecidableEq

/-- The representative of an integer modulo `2 ^ 32` between `-2 ^ 31` and
`2 ^ 31 - 1`. -/
def wrap32 (i : Int) : Int := (i + 2147483648) % 4294967296 - 2147483648

/-- The 32-bit value of an integer. -/
def LONG.wrap (i : Int) : LONG := ⟨wrap32 i, by unfold wrap32; omega⟩

/-- The smallest value, `INT_MIN`. -/
def INT_MIN : LONG := ⟨-2147483648, by omega⟩

/-- An integer that a `LONG` can hold. -/
def Fits32 (i : Int) : Prop := -2147483648 ≤ i ∧ i ≤ 2147483647

instance : Add LONG := ⟨fun a b => LONG.wrap (a.val + b.val)⟩

instance : Sub LONG := ⟨fun a b => LONG.wrap (a.val - b.val)⟩

instance (n : Nat) : OfNat LONG n := ⟨LONG.wrap n⟩

/-! ## binary64 arithmetic -/

/-- A finite binary64 value, kept exactly as `m * 2 ^ e`. -/
structure Dbl where
  m : Int
  e : Int
deriving DecidableEq, Repr

/-- Number of binary digits of `n`, by halving; the first argument bounds the
number of halvings and `n` itself always suffices. -/
def bitLen : Nat → Nat → Nat
  | 0, _ => 0
  | f + 1, n => if n = 0 then 0 else bitLen f (n / 2) + 1

/-- Floor of the base-2 logarithm of a positive natural number. -/
def log2Floor (n : Nat) : Nat := bitLen n n - 1

/-- The fraction `(n / d) / 2 ^ e` as a numerator and a denominator. -/
def scaleBy (n d : Nat) (e : Int) : Nat × Nat :=
  if 0 ≤ e then (n, d * 2 ^ e.toNat) else (n * 2 ^ (-e).toNat, d)

/-- Floor of the base-2 logarithm of the positive fraction `n / d`. -/
def ilog2Frac (n d : Nat) : Int :=
  let l : Int := (log2Floor n : Int) - (log2Floor d : Int)
  let p := scaleBy n d l
  if p.2 ≤ p.1 then l else l - 1

/-- Round the fraction `n / d` to 53 significant bits, ties to even: the
significand and the exponent of the result. -/
def roundMag (n d : Nat) : Nat × Int :=
  if n = 0 then (0, 0) else
  let e := ilog2Frac n d - 52
  let p := scaleBy n d e
  let q := p.1 / p.2
  let r := p.1 % p.2
  let m := if 2 * r < p.2 then q
    else if p.2 < 2 * r then q + 1
    else if q % 2 = 0 then q else q + 1
  (m, e)

/-- The binary64 value nearest to `num / den`. -/
def Dbl.ofFrac (num : Int) (den : Nat) : Dbl :=
  let r := roundMag num.natAbs den
  ⟨if num < 0 then -(r.1 : Int) else r.1, r.2⟩

/-- Conversion `int -> double`. -/
def Dbl.ofInt (i : Int) : Dbl := Dbl.ofFrac i 1

/-- Division of two doubles, correctly rounded. -/
def Dbl.div (a b : Dbl) : Dbl :=
  let s : Int := if b.m < 0 then -1 else 1
  let ex := a.e - b.e
  if 0 ≤ ex then Dbl.ofFrac (s * a.m * ((2 ^ ex.toNat : Nat) : Int)) b.m.natAbs
  else Dbl.ofFrac (s * a.m) (b.m.natAbs * 2 ^ (-ex).toNat)

/-- Product of two doubles, correctly rounded. -/
def Dbl.mul (a b : Dbl) : Dbl :=
  let ex := a.e + b.e
  if 0 ≤ ex then Dbl.ofFrac (a.m * b.m * ((2 ^ ex.toNat : Nat) : Int)) 1
  else Dbl.ofFrac (a.m * b.m) (2 ^ (-ex).toNat)

/-- The integer part of a double: the fractional part is discarded (truncation
toward zero). -/
def Dbl.toInt (a : Dbl) : Int :=
  if 0 ≤ a.e then a.m * ((2 ^ a.e.toNat : Nat) : Int)
  else Int.tdiv a.m ((2 ^ (-a.e).toNat : Nat) : Int)

/-- The exact rational value of a double. -/
def Dbl.toRat (a : Dbl) : ℚ := (a.m : ℚ) * (2 : ℚ) ^ a.e

/-- Conversion `static_cast<int>(double)`: the integer part when an `int` can
hold it, and `INT_MIN` otherwise (the result of the x86 conversion
instruction; C++ leaves that case undefined). -/
def Dbl.toLONG (a : Dbl) : LONG :=
  if h : -2147483648 ≤ Dbl.toInt a ∧ Dbl.toInt a ≤ 2147483647 then ⟨Dbl.toInt a, h⟩
  else INT_MIN

/-! ## Data model -/

/-- A native window handle, ordered as `std::map<HWND, _>` orders its keys. -/
abbrev HWND := Nat

/-- Win32 `RECT`. -/
structure RECT where
  left : LONG
  top : LONG
  right : LONG
  bottom : LONG
deriving DecidableEq

/-- Win32 `MONITORINFO`: the monitor rectangle `rcMonitor`, the work area
`rcWork` and the flags. -/
structure MONITORINFO where
  rcMonitor : RECT
  rcWork : RECT
  dwFlags : Nat
deriving DecidableEq

/-- The record `struct AppBarState` (lines 12-19). -/
structure AppBarState where
  hwnd : HWND
  callbackMsg : Nat
  isRegistered : Bool
  originalRect : RECT
  edge : LONG
  height : LONG
deriving DecidableEq

/-- Windows SDK, `shellapi.h`: `ABE_LEFT`. -/
def ABE_LEFT : LONG := 0
/-- Windows SDK, `shellapi.h`: `ABE_TOP`. -/
def ABE_TOP : LONG := 1
/-- Windows SDK, `shellapi.h`: `ABE_RIGHT`. -/
def ABE_RIGHT : LONG := 2
/-- Windows SDK, `shellapi.h`: `ABE_BOTTOM`. -/
def ABE_BOTTOM : LONG := 3
/-- Windows SDK, `winuser.h`: `WM_USER`. -/
def WM_USER : Nat := 0x0400

/-- Line 26. -/
def EDGE_TOP : LONG := ABE_TOP
/-- Line 27. -/
def EDGE_BOTTOM : LONG := ABE_BOTTOM
/-- Line 28. -/
def EDGE_LEFT : LONG := ABE_LEFT
/-- Line 29. -/
def EDGE_RIGHT : LONG := ABE_RIGHT

/-- The number of values of a `UINT`. -/
def UINT_SIZE : Nat := 4294967296

/-- The messages of `SHAppBarMessage` that the program sends. -/
inductive ShellMsg where
  | ABM_NEW
  | ABM_REMOVE
  | ABM_QUERYPOS
  | ABM_SETPOS
deriving DecidableEq

/-- The members of Win32 `APPBARDATA` that the program sets after
`ZeroMemory` (`cbSize` is constant, `lParam` stays zero). -/
structure APPBARDATA where
  hWnd : HWND
  uCallbackMessage : Nat
  uEdge : Nat
  rc : RECT
deriving DecidableEq

/-- An observable action of the program on the shell or on a window. -/
inductive Event where
  | shell (msg : ShellMsg) (abd : APPBARDATA)
  | moveWindow (hwnd : HWND) (x y nWidth nHeight : LONG)
deriving DecidableEq

/-- What the operating system answers during one call. -/
structure Env where
  /-- The answer of `IsWindow(hwnd)`. -/
  isWindow : HWND → Bool
  /-- The structure filled by
  `GetMonitorInfo(MonitorFromWindow(hwnd, MONITOR_DEFAULTTONEAREST), &mi)`. -/
  monitorInfo : HWND → MONITORINFO
  /-- The answer of `GetDeviceCaps(GetDC(hwnd), LOGPIXELSY)`. -/
  deviceCaps : HWND → LONG
  /-- The result of `SHAppBarMessage(ABM_NEW, &abd)`, as a boolean. -/
  shellNew : APPBARDATA → Bool
  /-- The rectangle in `abd.rc` after `SHAppBarMessage(ABM_QUERYPOS, &abd)`. -/
  shellQueryPos : APPBARDATA → RECT
  /-- The rectangle in `abd.rc` after `SHAppBarMessage(ABM_SETPOS, &abd)`. -/
  shellSetPos : APPBARDATA → RECT

/-- The globals of the module (lines 21 and 23) and the rectangles of the
windows of the desktop. -/
structure Sys where
  g_appbars : List (HWND × AppBarState)
  g_nextCallbackMsg : Nat
  windowRect : HWND → RECT

/-- The value returned by a call, the state it leaves and the actions it
performed, in order. -/
structure Outcome (α : Type) where
  ret : α
  sys : Sys
  events : List Event

/-- The state of a freshly loaded module: `g_appbars` empty,
`g_nextCallbackMsg = WM_USER + 0x100` (line 23). -/
def Sys.init (windowRect : HWND → RECT) : Sys :=
  { g_appbars := [], g_nextCallbackMsg := WM_USER + 0x100, windowRect := windowRect }

/-! ## Operations of `std::map` -/

/-- The lookup `g_appbars.find(hwnd)`: `none` stands for `end()`. -/
def mapFind : List (HWND × AppBarState) → HWND → Option AppBarState
  | [], _ => none
  | (k, v) :: t, hwnd => if k = hwnd then some v else mapFind t hwnd

/-- The assignment `g_appbars[hwnd] = state`: the entry of `hwnd` is replaced,
or a new entry is inserted at its place in key order. -/
def mapAssign : List (HWND × AppBarState) → HWND → AppBarState → List (HWND × AppBarState)
  | [], hwnd, state => [(hwnd, state)]
  | (k, v) :: t, hwnd, state =>
    if hwnd < k then (hwnd, state) :: (k, v) :: t
    else if hwnd = k then (hwnd, state) :: t
    else (k, v) :: mapAssign t hwnd state

/-- The removal `g_appbars.erase(it)` of the entry found for `hwnd`. -/
def mapErase : List (HWND × AppBarState) → HWND → List (HWND × AppBarState)
  | [], _ => []
  | (k, v) :: t, hwnd => if k = hwnd then t else (k, v) :: mapErase t hwnd

/-- The representation invariant of `std::map`: keys strictly increasing. -/
def MapSorted (m : List (HWND × AppBarState)) : Prop :=
  (m.map Prod.fst).Pairwise (fun a b => a < b)

/-! ## The program -/

/-- Lines 32-38, `GetMonitorWorkArea`. -/
def GetMonitorWorkArea (env : Env) (hwnd : HWND) : RECT :=
  let mi := env.monitorInfo hwnd
  mi.rcMonitor

/-- Lines 41-46, `GetDpiScaleFactor`: `dpi / 96.0`. -/
def GetDpiScaleFactor (env : Env) (hwnd : HWND) : Dbl :=
  let dpi := env.deviceCaps hwnd
  Dbl.div (Dbl.ofInt dpi.val) (Dbl.ofInt 96)

/-- The computation `static_cast<int>(height * dpiScale)` (lines 102, 237). -/
def scaleHeight (height : LONG) (dpiScale : Dbl) : LONG :=
  Dbl.toLONG (Dbl.mul (Dbl.ofInt height.val) dpiScale)

/-- The `switch (edge)` of lines 108-121, 127-140, 246-259 and 263-276: one
side of `rc` is recomputed from the opposite side and `scaledHeight`; any
other value of `edge` leaves `rc` as it is. -/
def clampEdge (edge : LONG) (rc : RECT) (scaledHeight : LONG) : RECT :=
  if edge = ABE_TOP then { rc with bottom := rc.top + scaledHeight }
  else if edge = ABE_BOTTOM then { rc with top := rc.bottom - scaledHeight }
  else if edge = ABE_LEFT then { rc with right := rc.left + scaledHeight }
  else if edge = ABE_RIGHT then { rc with left := rc.right - scaledHeight }
  else rc

/-- The conversion of the `int` edge to the `UINT` member `uEdge`. -/
def toUINT (i : LONG) : Nat := (i.val % (UINT_SIZE : Int)).toNat

/-- Win32 `MoveWindow(hwnd, X, Y, nWidth, nHeight, TRUE)` on a top-level
window: its rectangle becomes `{X, Y, X + nWidth, Y + nHeight}`. -/
def MoveWindow (s : Sys) (hwnd : HWND) (x y nWidth nHeight : LONG) : Sys :=
  { s with windowRect := fun w =>
      if w = hwnd then ⟨x, y, x + nWidth, y + nHeight⟩ else s.windowRect w }

/-- The test `it != g_appbars.end() && it->second.isRegistered` of lines 76,
189, 228 and 308. -/
def IsAppBarRegistered (s : Sys) (hwnd : HWND) : Bool :=
  match mapFind s.g_appbars hwnd with
  | some st => st.isRegistered
  | none => false

/-- What `RegisterAppBar` hands back to JavaScript. -/
inductive RegisterResult where
  /-- Line 69: an `Error` (invalid window handle) is thrown. -/
  | invalidWindow
  /-- Line 77: returns `true`. -/
  | alreadyRegistered
  /-- Line 95: an `Error` (the shell refused the registration) is thrown. -/
  | shellFailed
  /-- Lines 161-171: the object with `success: true`. -/
  | ok (left top right bottom width height : LONG) (dpiScale : Dbl)
deriving DecidableEq

/-- The rectangle reported by a successful registration. -/
def RegisterResult.rect : RegisterResult → Option RECT
  | .ok l t r b _ _ _ => some ⟨l, t, r, b⟩
  | _ => none

/-- The `APPBARDATA` of line 88-92, sent with `ABM_NEW`. -/
def newAbd (hwnd : HWND) (callbackMsg : Nat) : APPBARDATA :=
  { hWnd := hwnd, uCallbackMessage := callbackMsg, uEdge := 0, rc := ⟨0, 0, 0, 0⟩ }

/-- Lines 49-172, `RegisterAppBar`, from line 61 on: `hwnd` and `height` are
the decoded arguments, `edgeArg` is the third argument when it is a number. -/
def RegisterAppBar (env : Env) (s : Sys) (hwnd : HWND) (height : LONG)
    (edgeArg : Option LONG) : Outcome RegisterResult :=
  let edge := match edgeArg with
    | some e => e
    | none => EDGE_TOP
  if env.isWindow hwnd = false then ⟨.invalidWindow, s, []⟩
  else if IsAppBarRegistered s hwnd = true then ⟨.alreadyRegistered, s, []⟩
  else
    let originalRect := s.windowRect hwnd
    let callbackMsg := s.g_nextCallbackMsg
    let s1 := { s with g_nextCallbackMsg := (s.g_nextCallbackMsg + 1) % UINT_SIZE }
    let abd := newAbd hwnd callbackMsg
    if env.shellNew abd = false then ⟨.shellFailed, s1, [.shell .ABM_NEW abd]⟩
    else
      let monitorRect := GetMonitorWorkArea env hwnd
      let dpiScale := GetDpiScaleFactor env hwnd
      let scaledHeight := scaleHeight height dpiScale
      let abd1 := { abd with uEdge := toUINT edge,
                             rc := clampEdge edge monitorRect scaledHeight }
      let abd2 := { abd1 with rc := env.shellQueryPos abd1 }
      let abd3 := { abd2 with rc := clampEdge edge abd2.rc scaledHeight }
      let abd4 := { abd3 with rc := env.shellSetPos abd3 }
      let s2 := MoveWindow s1 hwnd abd4.rc.left abd4.rc.top
        (abd4.rc.right - abd4.rc.left) (abd4.rc.bottom - abd4.rc.top)
      let state : AppBarState :=
        { hwnd := hwnd, callbackMsg := callbackMsg, isRegistered := true,
          originalRect := originalRect, edge := edge, height := height }
      let s3 := { s2 with g_appbars := mapAssign s2.g_appbars hwnd state }
      ⟨.ok abd4.rc.left abd4.rc.top abd4.rc.right abd4.rc.bottom
          (abd4.rc.right - abd4.rc.left) (abd4.rc.bottom - abd4.rc.top) dpiScale,
        s3,
        [.shell .ABM_NEW abd, .shell .ABM_QUERYPOS abd1, .shell .ABM_SETPOS abd3,
         .moveWindow hwnd abd4.rc.left abd4.rc.top
           (abd4.rc.right - abd4.rc.left) (abd4.rc.bottom - abd4.rc.top)]⟩

/-- Lines 175-211, `UnregisterAppBar`, from line 186 on. -/
def UnregisterAppBar (s : Sys) (hwnd : HWND) : Outcome Bool :=
  match mapFind s.g_appbars hwnd with
  | none => ⟨false, s, []⟩
  | some st =>
    if st.isRegistered = false then ⟨false, s, []⟩
    else
      let abd := newAbd hwnd 0
      let orig := st.originalRect
      let s1 := MoveWindow s hwnd orig.left orig.top
        (orig.right - orig.left) (orig.bottom - orig.top)
      let s2 := { s1 with g_appbars := mapErase s1.g_appbars hwnd }
      ⟨true, s2,
        [.shell .ABM_REMOVE abd,
         .moveWindow hwnd orig.left orig.top
           (orig.right - orig.left) (orig.bottom - orig.top)]⟩

/-- What `UpdateAppBarPosition` hands back to JavaScript. -/
inductive UpdateResult where
  /-- Line 229: returns `false`. -/
  | notRegistered
  /-- Lines 284-291: the object with `success: true`. -/
  | ok (left top width height : LONG)
deriving DecidableEq

/-- Lines 214-292, `UpdateAppBarPosition`, from line 225 on. -/
def UpdateAppBarPosition (env : Env) (s : Sys) (hwnd : HWND) : Outcome UpdateResult :=
  match mapFind s.g_appbars hwnd with
  | none => ⟨.notRegistered, s, []⟩
  | some state =>
    if state.isRegistered = false then ⟨.notRegistered, s, []⟩
    else
      let monitorRect := GetMonitorWorkArea env hwnd
      let dpiScale := GetDpiScaleFactor env hwnd
      let scaledHeight := scaleHeight state.height dpiScale
      let abd1 : APPBARDATA :=
        { hWnd := hwnd, uCallbackMessage := 0, uEdge := toUINT state.edge,
          rc := clampEdge state.edge monitorRect scaledHeight }
      let abd2 := { abd1 with rc := env.shellQueryPos abd1 }
      let abd3 := { abd2 with rc := clampEdge state.edge abd2.rc scaledHeight }
      let abd4 := { abd3 with rc := env.shellSetPos abd3 }
      let s1 := MoveWindow s hwnd abd4.rc.left abd4.rc.top
        (abd4.rc.right - abd4.rc.left) (abd4.rc.bottom - abd4.rc.top)
      ⟨.ok abd4.rc.left abd4.rc.top
          (abd4.rc.right - abd4.rc.left) (abd4.rc.bottom - abd4.rc.top),
        s1,
        [.shell .ABM_QUERYPOS abd1, .shell .ABM_SETPOS abd3,
         .moveWindow hwnd abd4.rc.left abd4.rc.top
           (abd4.rc.right - abd4.rc.left) (abd4.rc.bottom - abd4.rc.top)]⟩

/-- The loop of lines 416-424: one `ABM_REMOVE` for every entry whose
`isRegistered` is set, in key order. -/
def cleanupLoop : List (HWND × AppBarState) → List Event
  | [] => []
  | (k, v) :: t =>
    if v.isRegistered = true then .shell .ABM_REMOVE (newAbd k 0) :: cleanupLoop t
    else cleanupLoop t

/-- Lines 411-429, `CleanupAllAppBars`. -/
def CleanupAllAppBars (s : Sys) : Outcome Bool :=
  ⟨true, { s with g_appbars := [] }, cleanupLoop s.g_appbars⟩

/-! ## Sequences of calls -/

/-- One call of an exported function of the registry. -/
inductive Call where
  | register (hwnd : HWND) (height : LONG) (edgeArg : Option LONG)
  | update (hwnd : HWND)
  | unregister (hwnd : HWND)
  | cleanupAll

/-- The state after one call and the actions of the call. -/
def step (env : Env) (s : Sys) : Call → Sys × List Event
  | .register hwnd height edgeArg =>
    let o := RegisterAppBar env s hwnd height edgeArg
    (o.sys, o.events)
  | .update hwnd =>
    let o := UpdateAppBarPosition env s hwnd
    (o.sys, o.events)
  | .unregister hwnd =>
    let o := UnregisterAppBar s hwnd
    (o.sys, o.events)
  | .cleanupAll =>
    let o := CleanupAllAppBars s
    (o.sys, o.events)

/-- The state after a sequence of calls, each with the answers of the
operating system during it, and all the actions performed, in order. -/
def run : List (Env × Call) → Sys → Sys × List Event
  | [], s => (s, [])
  | (env, c) :: rest, s =>
    let r := step env s c
    let r2 := run rest r.1
    (r2.1, r.2 ++ r2.2)

/-- The callback message carried by an `ABM_NEW` action. -/
def allocatedId : Event → Option Nat
  | .shell .ABM_NEW abd => some abd.uCallbackMessage
  | _ => none

/-- The callback messages handed out during a run, in order. -/
def allocatedIds (evs : List Event) : List Nat := evs.filterMap allocatedId

/-! ## The edge table of the specification -/

/-- The four edges of the specification. -/
inductive Edge where
  | Top
  | Bottom
  | Left
  | Right
deriving DecidableEq

/-- The integer that the program uses for an edge. -/
def Edge.code : Edge → LONG
  | .Top => EDGE_TOP
  | .Bottom => EDGE_BOTTOM
  | .Left => EDGE_LEFT
  | .Right => EDGE_RIGHT

/-- A rectangle of the specification: four integers. -/
structure SpecRect where
  left : Int
  top : Int
  right : Int
  bottom : Int
deriving DecidableEq

/-- The four integers of a `RECT`. -/
def RECT.toSpec (r : RECT) : SpecRect := ⟨r.left.val, r.top.val, r.right.val, r.bottom.val⟩

/-- A rectangle whose four coordinates a `RECT` can hold. -/
def SpecRect.Fits (r : SpecRect) : Prop :=
  Fits32 r.left ∧ Fits32 r.top ∧ Fits32 r.right ∧ Fits32 r.bottom

/-- The edge-rectangle derivation table of the specification (section 4.4),
for a work area `W` and a physical thickness `h`, in exact integer
arithmetic. -/
def specEdgeRect (e : Edge) (W : SpecRect) (h : Int) : SpecRect :=
  match e with
  | .Top => { left := W.left, top := W.top, right := W.right, bottom := W.top + h }
  | .Bottom => { left := W.left, top := W.bottom - h, right := W.right, bottom := W.bottom }
  | .Left => { left := W.left, top := W.top, right := W.left + h, bottom := W.bottom }
  | .Right => { left := W.right - h, top := W.top, right := W.right, bottom := W.bottom }

/-- The edge table computed in 32-bit arithmetic, for a work area `W` and a
physical thickness `h`. -/
def specEdgeRect32 (e : Edge) (W : RECT) (h : LONG) : RECT :=
  match e with
  | .Top => { left := W.left, top := W.top, right := W.right, bottom := W.top + h }
  | .Bottom => { left := W.left, top := W.bottom - h, right := W.right, bottom := W.bottom }
  | .Left => { left := W.left, top := W.top, right := W.left + h, bottom := W.bottom }
  | .Right => { left := W.right - h, top := W.top, right := W.right, bottom := W.bottom }

/-- The physical height of the specification (section 4.4, step 6),
`logicalHeight × dpiScale`, as the rational number it is. -/
def specPhysicalHeight (logicalHeight : Int) (dpiScale : ℚ) : ℚ := logicalHeight * dpiScale

/-- The integer part of the binary64 product of a logical height and of the
scale `dpi / 96.0`. -/
def physicalPixels (logicalHeight dpi : LONG) : Int :=
  Dbl.toInt (Dbl.mul (Dbl.ofInt logicalHeight.val)
    (Dbl.div (Dbl.ofInt dpi.val) (Dbl.ofInt 96)))

/-- The physical height of the specification as the `int` that the program
keeps: `physicalPixels` when an `int` can hold it, `INT_MIN` otherwise. -/
def physicalHeight (logicalHeight dpi : LONG) : LONG :=
  Dbl.toLONG (Dbl.mul (Dbl.ofInt logicalHeight.val)
    (Dbl.div (Dbl.ofInt dpi.val) (Dbl.ofInt 96)))

/-- The re-clamp rule of the specification (section 4.4, step 8) in 32-bit
arithmetic: `R` has the thickness `h` along the edge and keeps the anchored
side and the two perpendicular sides of `S`. -/
def ClampedTo (e : Edge) (h : LONG) (S R : RECT) : Prop :=
  match e with
  | .Top => R.bottom - R.top = h ∧ R.top = S.top ∧ R.left = S.left ∧ R.right = S.right
  | .Bottom => R.bottom - R.top = h ∧ R.bottom = S.bottom ∧ R.left = S.left ∧ R.right = S.right
  | .Left => R.right - R.left = h ∧ R.left = S.left ∧ R.top = S.top ∧ R.bottom = S.bottom
  | .Right => R.right - R.left = h ∧ R.right = S.right ∧ R.top = S.top ∧ R.bottom = S.bottom

/-! ## Concrete situations -/

/-- A desktop on which every handle is a window, the monitor has rectangle
`monitor` and work area `work`, the device reports `dpi` dots per inch, the
shell accepts every registration and returns every proposed rectangle
unchanged. -/
def exEnv (monitor work : RECT) (dpi : LONG) : Env :=
  { isWindow := fun _ => true
    monitorInfo := fun _ => ⟨monitor, work, 1⟩
    deviceCaps := fun _ => dpi
    shellNew := fun _ => true
    shellQueryPos := fun abd => abd.rc
    shellSetPos := fun abd => abd.rc }

/-- The rectangle `{0, 40, 1920, 1080}` of property P4. -/
def exWorkP4 : RECT := ⟨0, 40, 1920, 1080⟩

/-- The rectangle of a 1920x1080 monitor. -/
def exFullHD : RECT := ⟨0, 0, 1920, 1080⟩

/-- A freshly loaded module on a desktop whose windows all have the
rectangle `{100, 100, 900, 700}`. -/
def exSys : Sys := Sys.init (fun _ => ⟨100, 100, 900, 700⟩)

/-- The work area of a 1920x1080 monitor with a taskbar of 40 pixels at the
bottom. -/
def exTaskbarWork : RECT := ⟨0, 0, 1920, 1040⟩

/-- A desktop whose shell moves every side of a proposed rectangle. -/
def exEnvShift : Env :=
  { isWindow := fun _ => true
    monitorInfo := fun _ => ⟨exFullHD, exFullHD, 1⟩
    deviceCaps := fun _ => 96
    shellNew := fun _ => true
    shellQueryPos := fun abd =>
      ⟨abd.rc.left + 5, abd.rc.top + 30, abd.rc.right - 7, abd.rc.bottom + 11⟩
    shellSetPos := fun abd => abd.rc }

/-- A desktop on which no handle is a window any more. -/
def exEnvGone : Env :=
  { isWindow := fun _ => false
    monitorInfo := fun _ => ⟨exFullHD, exFullHD, 1⟩
    deviceCaps := fun _ => 96
    shellNew := fun _ => true
    shellQueryPos := fun abd => abd.rc
    shellSetPos := fun abd => abd.rc }

/-- A desktop whose shell refuses every registration. -/
def exEnvRefuse : Env :=
  { isWindow := fun _ => true
    monitorInfo := fun _ => ⟨exFullHD, exFullHD, 1⟩
    deviceCaps := fun _ => 96
    shellNew := fun _ => false
    shellQueryPos := fun abd => abd.rc
    shellSetPos := fun abd => abd.rc }

/-- The state after window 1 registered at the bottom edge with logical
height 48 on a 1920x1080 monitor at 96 dots per inch. -/
def exSysOne : Sys :=
  (RegisterAppBar (exEnv exFullHD exFullHD 96) exSys 1 48 (some EDGE_BOTTOM)).sys

/-- The state after window 2 registered as well, at the default edge. -/
def exSysTwo : Sys :=
  (RegisterAppBar (exEnv exFullHD exFullHD 96) exSysOne 2 40 none).sys

/-- Every record of the map has `isRegistered` set. -/
def AllLive (m : List (HWND × AppBarState)) : Prop := ∀ p ∈ m, p.2.isRegistered = true

/-- The callback messages of the records of the map, in key order. -/
def regIds (m : List (HWND × AppBarState)) : List Nat := m.map (fun p => p.2.callbackMsg)

/-- A session: two registrations, a refused one, an unregistration, an update
and a new registration of the first window. -/
def exCalls : List (Env × Call) :=
  [(exEnv exFullHD exFullHD 96, Call.register 1 48 (some EDGE_BOTTOM)),
   (exEnv exFullHD exFullHD 96, Call.register 2 40 none),
   (exEnvRefuse, Call.register 3 40 none),
   (exEnv exFullHD exFullHD 96, Call.unregister 1),
   (exEnv exFullHD exFullHD 144, Call.update 2),
   (exEnv exFullHD exFullHD 96, Call.register 1 30 (some EDGE_LEFT))]

/-- A session in which window 1 registers, the shell then refuses window 2
`2 ^ 32 - 1` times, and finally accepts it. -/
def exWrapCalls : List (Env × Call) :=
  (exEnv exFullHD exFullHD 96, Call.register 1 48 (some EDGE_BOTTOM))
    :: (List.replicate (UINT_SIZE - 1) (exEnvRefuse, Call.register 2 40 none)
        ++ [(exEnv exFullHD exFullHD 96, Call.register 2 40 none)])

/-- A desktop at 144 dots per inch whose shell moves every side of a proposed
rectangle at `ABM_QUERYPOS` and moves the rectangle down by 10 at
`ABM_SETPOS`. -/
def exEnvAdjust : Env :=
  { isWindow := fun _ => true
    monitorInfo := fun _ => ⟨exFullHD, exFullHD, 1⟩
    deviceCaps := fun _ => 144
    shellNew := fun _ => true
    shellQueryPos := fun abd =>
      ⟨abd.rc.left + 5, abd.rc.top + 30, abd.rc.right - 7, abd.rc.bottom + 11⟩
    shellSetPos := fun abd =>
      ⟨abd.rc.left, abd.rc.top + 10, abd.rc.right, abd.rc.bottom + 10⟩ }

/-- A desktop at 96 dots per inch whose shell returns every proposal
unchanged at `ABM_QUERYPOS` and moves the rectangle down by 10 at
`ABM_SETPOS`. -/
def exEnvSetPosMoves : Env :=
  { isWindow := fun _ => true
    monitorInfo := fun _ => ⟨exWorkP4, exWorkP4, 1⟩
    deviceCaps := fun _ => 96
    shellNew := fun _ => true
    shellQueryPos := fun abd => abd.rc
    shellSetPos := fun abd =>
      ⟨abd.rc.left, abd.rc.top + 10, abd.rc.right, abd.rc.bottom + 10⟩ }

/-- A desktop at 96 dots per inch whose shell answers `ABM_QUERYPOS` with a
rectangle near the largest coordinate. -/
def exEnvFar : Env :=
  { isWindow := fun _ => true
    monitorInfo := fun _ => ⟨exFullHD, exFullHD, 1⟩
    deviceCaps := fun _ => 96
    shellNew := fun _ => true
    shellQueryPos := fun abd => ⟨abd.rc.left, 2147483600, abd.rc.right, 2147483640⟩
    shellSetPos := fun abd => abd.rc }

/-! ## Lemmas on 32-bit integers -/

/-- Two 32-bit values with the same integer are equal. -/
theorem LONG.eq_of_val (a b : LONG) (h : a.val = b.val) : a = b := by
  cases a
  cases b
  simp only at h
  subst h
  rfl

/-- The integer of a sum that fits. -/
theorem LONG.val_add (a b : LONG) (h : Fits32 (a.val + b.val)) :
    (a + b).val = a.val + b.val := by
  show wrap32 (a.val + b.val) = a.val + b.val
  unfold Fits32 at h
  unfold wrap32
  omega

/-- The integer of a difference that fits. -/
theorem LONG.val_sub (a b : LONG) (h : Fits32 (a.val - b.val)) :
    (a - b).val = a.val - b.val := by
  show wrap32 (a.val - b.val) = a.val - b.val
  unfold Fits32 at h
  unfold wrap32
  omega

/-- In 32-bit arithmetic `a + (b - a)` is `b`. -/
theorem LONG.add_sub_cancel (a b : LONG) : a + (b - a) = b := by
  apply LONG.eq_of_val
  have ha := a.inRange
  have hb := b.inRange
  show wrap32 (a.val + wrap32 (b.val - a.val)) = b.val
  unfold wrap32
  omega

/-- In 32-bit arithmetic `(a + h) - a` is `h`. -/
theorem LONG.add_sub_self (a h : LONG) : (a + h) - a = h := by
  apply LONG.eq_of_val
  have ha := a.inRange
  have hh := h.inRange
  show wrap32 (wrap32 (a.val + h.val) - a.val) = h.val
  unfold wrap32
  omega

/-- In 32-bit arithmetic `a - (a - h)` is `h`. -/
theorem LONG.sub_sub_self (a h : LONG) : a - (a - h) = h := by
  apply LONG.eq_of_val
  have ha := a.inRange
  have hh := h.inRange
  show wrap32 (a.val - wrap32 (a.val - h.val)) = h.val
  unfold wrap32
  omega

/-- The conversion to `int` of a double whose integer part fits. -/
theorem Dbl.toLONG_val (a : Dbl) (h : Fits32 (Dbl.toInt a)) :
    (Dbl.toLONG a).val = Dbl.toInt a := by
  unfold Fits32 at h
  unfold Dbl.toLONG
  rw [dif_pos h]

/-- The physical height is the integer part of the product when it fits. -/
theorem physicalHeight_val (logicalHeight dpi : LONG)
    (h : Fits32 (physicalPixels logicalHeight dpi)) :
    (physicalHeight logicalHeight dpi).val = physicalPixels logicalHeight dpi :=
  Dbl.toLONG_val _ h

/-- The `switch` on each of the four edge constants is the row of the edge
table, in 32-bit arithmetic. -/
theorem clampEdge_code (e : Edge) (rc : RECT) (h : LONG) :
    clampEdge e.code rc h = specEdgeRect32 e rc h := by
  cases e
  · simp [clampEdge, specEdgeRect32, Edge.code, EDGE_TOP]
  · have h1 : ABE_BOTTOM ≠ ABE_TOP := by decide
    simp [clampEdge, specEdgeRect32, Edge.code, EDGE_BOTTOM, h1]
  · have h1 : ABE_LEFT ≠ ABE_TOP := by decide
    have h2 : ABE_LEFT ≠ ABE_BOTTOM := by decide
    simp [clampEdge, specEdgeRect32, Edge.code, EDGE_LEFT, h1, h2]
  · have h1 : ABE_RIGHT ≠ ABE_TOP := by decide
    have h2 : ABE_RIGHT ≠ ABE_BOTTOM := by decide
    have h3 : ABE_RIGHT ≠ ABE_LEFT := by decide
    simp [clampEdge, specEdgeRect32, Edge.code, EDGE_RIGHT, h1, h2, h3]

/-- The edge table in 32-bit arithmetic is the edge table of the
specification whenever the rectangle of the specification fits. -/
theorem specEdgeRect32_exact (e : Edge) (W : RECT) (h : LONG)
    (hfit : (specEdgeRect e W.toSpec h.val).Fits) :
    (specEdgeRect32 e W h).toSpec = specEdgeRect e W.toSpec h.val := by
  cases e
  · have := LONG.val_add W.top h hfit.2.2.2
    simp [specEdgeRect32, specEdgeRect, RECT.toSpec, this]
  · have := LONG.val_sub W.bottom h hfit.2.1
    simp [specEdgeRect32, specEdgeRect, RECT.toSpec, this]
  · have := LONG.val_add W.left h hfit.2.2.1
    simp [specEdgeRect32, specEdgeRect, RECT.toSpec, this]
  · have := LONG.val_sub W.right h hfit.1
    simp [specEdgeRect32, specEdgeRect, RECT.toSpec, this]

/-- Applying a row of the edge table twice is applying it once. -/
theorem specEdgeRect32_idem (e : Edge) (W : RECT) (h : LONG) :
    specEdgeRect32 e (specEdgeRect32 e W h) h = specEdgeRect32 e W h := by
  cases e <;> simp [specEdgeRect32]

/-- A rectangle of the edge table in 32-bit arithmetic has the thickness `h`
along the edge and the other three sides of the rectangle it comes from. -/
theorem clampedTo_specEdgeRect32 (e : Edge) (h : LONG) (S : RECT) :
    ClampedTo e h S (specEdgeRect32 e S h) := by
  cases e
  · exact ⟨LONG.add_sub_self _ _, rfl, rfl, rfl⟩
  · exact ⟨LONG.sub_sub_self _ _, rfl, rfl, rfl⟩
  · exact ⟨LONG.add_sub_self _ _, rfl, rfl, rfl⟩
  · exact ⟨LONG.sub_sub_self _ _, rfl, rfl, rfl⟩

/-! ## Lemmas on binary64 -/

/-- The conversion to `int` discards the fractional part: the result is the
floor of a nonnegative value and the ceiling of a negative one. -/
theorem Dbl.toInt_truncates (a : Dbl) :
    Dbl.toInt a = if 0 ≤ Dbl.toRat a then ⌊Dbl.toRat a⌋ else ⌈Dbl.toRat a⌉ := by
  unfold Dbl.toInt Dbl.toRat
  by_cases he : 0 ≤ a.e
  · obtain ⟨n, hn⟩ := Int.eq_ofNat_of_zero_le he
    have hv : (a.m : ℚ) * (2 : ℚ) ^ a.e = ((a.m * ((2 ^ n : Nat) : Int) : Int) : ℚ) := by
      rw [hn, zpow_natCast]
      push_cast
      ring
    rw [if_pos he, hv, Int.floor_intCast, Int.ceil_intCast, ite_self, hn, Int.toNat_ofNat]
  · have hlt : a.e < 0 := by omega
    obtain ⟨n, hn⟩ := Int.eq_ofNat_of_zero_le (show 0 ≤ -a.e by omega)
    have he2 : a.e = -(n : Int) := by omega
    have hv : (a.m : ℚ) * (2 : ℚ) ^ a.e = (a.m : ℚ) / ((2 ^ n : Nat) : ℚ) := by
      rw [he2, zpow_neg, zpow_natCast]
      push_cast
      ring
    have hdpos : (0 : ℚ) < ((2 ^ n : Nat) : ℚ) := by positivity
    rw [if_neg he, hv, hn, Int.toNat_ofNat]
    by_cases hm : 0 ≤ a.m
    · have h0 : (0 : ℚ) ≤ (a.m : ℚ) / ((2 ^ n : Nat) : ℚ) :=
        div_nonneg (by exact_mod_cast hm) hdpos.le
      rw [if_pos h0, Rat.floor_intCast_div_natCast, Int.tdiv_eq_ediv hm (by positivity)]
    · have hm2 : a.m < 0 := by omega
      have h0 : ¬ (0 : ℚ) ≤ (a.m : ℚ) / ((2 ^ n : Nat) : ℚ) := by
        rw [not_le]
        exact div_neg_of_neg_of_pos (by exact_mod_cast hm2) hdpos
      rw [if_neg h0]
      have hneg : (a.m : ℚ) / ((2 ^ n : Nat) : ℚ) = -(((-a.m : Int) : ℚ) / ((2 ^ n : Nat) : ℚ)) := by
        push_cast
        ring
      rw [hneg, Int.ceil_neg, Rat.floor_intCast_div_natCast]
      have : a.m = -(-a.m) := by omega
      rw [this, Int.neg_tdiv, Int.tdiv_eq_ediv (by omega) (by positivity)]
      simp

/-! ## Lemmas on the map -/

/-- After `g_appbars[k] = v` the lookup of `k` finds `v`. -/
theorem mapFind_mapAssign_self (m : List (HWND × AppBarState)) (k : HWND) (v : AppBarState) :
    mapFind (mapAssign m k v) k = some v := by
  induction m with
  | nil => simp [mapAssign, mapFind]
  | cons p t ih =>
    obtain ⟨k1, v1⟩ := p
    unfold mapAssign
    split_ifs with h1 h2
    · simp [mapFind]
    · simp [mapFind]
    · have : k1 ≠ k := fun h => h2 h.symm
      simp [mapFind, this, ih]

/-- The assignment `g_appbars[k] = v` leaves the lookup of every other key as it was. -/
theorem mapFind_mapAssign_ne (m : List (HWND × AppBarState)) (k k2 : HWND) (v : AppBarState)
    (h : k2 ≠ k) : mapFind (mapAssign m k v) k2 = mapFind m k2 := by
  induction m with
  | nil => simp [mapAssign, mapFind, h.symm]
  | cons p t ih =>
    obtain ⟨k1, v1⟩ := p
    unfold mapAssign
    split_ifs with h1 h2
    · simp [mapFind, h.symm]
    · subst h2
      simp [mapFind, h.symm]
    · by_cases h3 : k1 = k2
      · simp [mapFind, h3]
      · simp [mapFind, h3, ih]

/-- A record found by the lookup is an entry of the map. -/
theorem mem_of_mapFind (m : List (HWND × AppBarState)) (k : HWND) (v : AppBarState)
    (h : mapFind m k = some v) : (k, v) ∈ m := by
  induction m with
  | nil => simp [mapFind] at h
  | cons p t ih =>
    obtain ⟨k1, v1⟩ := p
    by_cases hk : k1 = k
    · simp [mapFind, hk] at h
      simp [hk, h]
    · simp [mapFind, hk] at h
      exact List.mem_cons_of_mem _ (ih h)

/-- In a map with increasing keys, a key that is found occurs exactly once. -/
theorem sorted_keys_count (m : List (HWND × AppBarState)) (k : HWND) (v : AppBarState)
    (hs : MapSorted m) (h : mapFind m k = some v) : (m.map Prod.fst).count k = 1 := by
  have hnd : (m.map Prod.fst).Nodup := List.Pairwise.imp (fun h => Nat.ne_of_lt h) hs
  have hm : k ∈ m.map Prod.fst := List.mem_map.mpr ⟨(k, v), mem_of_mapFind m k v h, rfl⟩
  exact List.count_eq_one_of_mem hnd hm

/-- An entry of the map after `g_appbars[k] = v` is the new one or an old one. -/
theorem mem_mapAssign (m : List (HWND × AppBarState)) (k : HWND) (v : AppBarState)
    (p : HWND × AppBarState) (h : p ∈ mapAssign m k v) : p = (k, v) ∨ p ∈ m := by
  induction m with
  | nil => simpa [mapAssign] using h
  | cons q t ih =>
    obtain ⟨k1, v1⟩ := q
    unfold mapAssign at h
    split_ifs at h with h1 h2
    · simpa using h
    · rcases List.mem_cons.mp h with h | h
      · exact Or.inl h
      · exact Or.inr (List.mem_cons_of_mem _ h)
    · rcases List.mem_cons.mp h with h | h
      · right
        rw [h]
        exact List.mem_cons_self _ _
      · rcases ih h with h | h
        · exact Or.inl h
        · exact Or.inr (List.mem_cons_of_mem _ h)

/-- A key of the map after `g_appbars[k] = v` is `k` or an old key. -/
theorem keys_mapAssign_mem (m : List (HWND × AppBarState)) (k : HWND) (v : AppBarState)
    (x : HWND) (h : x ∈ (mapAssign m k v).map Prod.fst) : x = k ∨ x ∈ m.map Prod.fst := by
  induction m with
  | nil => simpa [mapAssign] using h
  | cons p t ih =>
    obtain ⟨k1, v1⟩ := p
    unfold mapAssign at h
    split_ifs at h with h1 h2
    · simpa using h
    · simp at h
      rcases h with h | h
      · exact Or.inl h
      · right
        simp only [List.map_cons, List.mem_cons]
        right
        simpa using h
    · simp only [List.map_cons, List.mem_cons] at h
      rcases h with h | h
      · right
        simp [h]
      · rcases ih h with h | h
        · exact Or.inl h
        · right
          simp only [List.map_cons, List.mem_cons]
          exact Or.inr h

/-- The assignment `g_appbars[k] = v` keeps the keys increasing. -/
theorem mapAssign_sorted (m : List (HWND × AppBarState)) (k : HWND) (v : AppBarState)
    (hs : MapSorted m) : MapSorted (mapAssign m k v) := by
  induction m with
  | nil => simp [mapAssign, MapSorted]
  | cons p t ih =>
    obtain ⟨k1, v1⟩ := p
    have hs1 : ∀ a ∈ t.map Prod.fst, k1 < a := by
      unfold MapSorted at hs
      simp only [List.map_cons, List.pairwise_cons] at hs
      exact hs.1
    have hs2 : MapSorted t := by
      unfold MapSorted at hs ⊢
      simp only [List.map_cons, List.pairwise_cons] at hs
      exact hs.2
    unfold mapAssign
    split_ifs with h1 h2
    · unfold MapSorted at hs ⊢
      simp only [List.map_cons, List.pairwise_cons] at hs ⊢
      refine ⟨?_, hs⟩
      intro a ha
      rcases List.mem_cons.mp ha with ha | ha
      · rw [ha]
        exact h1
      · exact Nat.lt_trans h1 (hs1 a ha)
    · subst h2
      unfold MapSorted at hs ⊢
      simpa using hs
    · unfold MapSorted
      simp only [List.map_cons, List.pairwise_cons]
      refine ⟨?_, ih hs2⟩
      intro a ha
      rcases keys_mapAssign_mem t k v a ha with ha | ha
      · rw [ha]
        exact Nat.lt_of_le_of_ne (Nat.le_of_not_lt h1) (Ne.symm h2)
      · exact hs1 a ha

/-- The map after `erase` is a sublist of the map before. -/
theorem mapErase_sublist (m : List (HWND × AppBarState)) (k : HWND) :
    (mapErase m k).Sublist m := by
  induction m with
  | nil => simp [mapErase]
  | cons p t ih =>
    obtain ⟨k1, v1⟩ := p
    unfold mapErase
    split_ifs with h
    · exact List.sublist_cons_self _ _
    · exact ih.cons₂ _

/-- The removal `erase` keeps the keys increasing. -/
theorem mapErase_sorted (m : List (HWND × AppBarState)) (k : HWND)
    (hs : MapSorted m) : MapSorted (mapErase m k) :=
  List.Pairwise.sublist ((mapErase_sublist m k).map Prod.fst) hs

/-- The callback messages after `g_appbars[k] = v` are among the new one and the old ones,
counted with multiplicity. -/
theorem regIds_mapAssign (m : List (HWND × AppBarState)) (k : HWND) (v : AppBarState) :
    (regIds (mapAssign m k v)).Subperm (v.callbackMsg :: regIds m) := by
  induction m with
  | nil => simp [mapAssign, regIds]
  | cons p t ih =>
    obtain ⟨k1, v1⟩ := p
    unfold mapAssign
    split_ifs with h1 h2
    · exact List.Subperm.refl _
    · apply List.Sublist.subperm
      simp only [regIds, List.map_cons]
      exact (List.sublist_cons_self _ _).cons₂ _
    · have h3 : (v1.callbackMsg :: regIds (mapAssign t k v)).Subperm
          (v1.callbackMsg :: v.callbackMsg :: regIds t) :=
        (List.subperm_cons _).mpr ih
      exact h3.trans (List.Perm.swap _ _ _).subperm

/-- Every action of the cleanup loop is an `ABM_REMOVE` for an entry whose
`isRegistered` is set. -/
theorem mem_cleanupLoop (m : List (HWND × AppBarState)) (ev : Event)
    (h : ev ∈ cleanupLoop m) :
    ∃ k v, (k, v) ∈ m ∧ v.isRegistered = true
      ∧ ev = Event.shell ShellMsg.ABM_REMOVE (newAbd k 0) := by
  induction m with
  | nil => simp [cleanupLoop] at h
  | cons p t ih =>
    obtain ⟨k1, v1⟩ := p
    by_cases hv : v1.isRegistered = true
    · simp [cleanupLoop, hv] at h
      rcases h with h | h
      · exact ⟨k1, v1, by simp, hv, h⟩
      · obtain ⟨k, v, hm, hl, he⟩ := ih h
        exact ⟨k, v, List.mem_cons_of_mem _ hm, hl, he⟩
    · simp [cleanupLoop, hv] at h
      obtain ⟨k, v, hm, hl, he⟩ := ih h
      exact ⟨k, v, List.mem_cons_of_mem _ hm, hl, he⟩

/-- On a map with increasing keys the cleanup loop sends `ABM_REMOVE` for a window
once when the window is registered and never otherwise. -/
theorem cleanupLoop_count (m : List (HWND × AppBarState)) (hs : MapSorted m) (w : HWND) :
    (cleanupLoop m).count (Event.shell ShellMsg.ABM_REMOVE (newAbd w 0))
      = if (match mapFind m w with
            | some st => st.isRegistered
            | none => false) = true then 1 else 0 := by
  induction m with
  | nil => simp [cleanupLoop, mapFind]
  | cons p t ih =>
    obtain ⟨k1, v1⟩ := p
    have hs2 : MapSorted t := by
      unfold MapSorted at hs ⊢
      simp only [List.map_cons, List.pairwise_cons] at hs
      exact hs.2
    have hlt : ∀ q ∈ t, k1 < q.1 := by
      unfold MapSorted at hs
      simp only [List.map_cons, List.pairwise_cons] at hs
      intro q hq
      exact hs.1 q.1 (List.mem_map.mpr ⟨q, hq, rfl⟩)
    by_cases hk : k1 = w
    · subst hk
      have hnot : Event.shell ShellMsg.ABM_REMOVE (newAbd k1 0) ∉ cleanupLoop t := by
        intro hmem
        obtain ⟨k, v, hm, _, he⟩ := mem_cleanupLoop t _ hmem
        have hkk : k1 = k := by
          simp [newAbd] at he
          exact he
        have := hlt _ hm
        simp [hkk] at this
      have hc0 := List.count_eq_zero_of_not_mem hnot
      by_cases hv : v1.isRegistered = true
      · simp [cleanupLoop, hv, mapFind, hc0]
      · simp [cleanupLoop, hv, mapFind, hc0]
    · have hne : Event.shell ShellMsg.ABM_REMOVE (newAbd k1 0)
          ≠ Event.shell ShellMsg.ABM_REMOVE (newAbd w 0) := by
        simp [newAbd, hk]
      by_cases hv : v1.isRegistered = true
      · simp [cleanupLoop, hv, mapFind, hk, List.count_cons, hne, ih hs2]
      · simp [cleanupLoop, hv, mapFind, hk, ih hs2]

/-! ## The four exits of `RegisterAppBar` -/

/-- The window member of the `APPBARDATA` sent with `ABM_NEW`. -/
@[simp]
theorem newAbd_hWnd (hwnd : HWND) (c : Nat) : (newAbd hwnd c).hWnd = hwnd := rfl

/-- The callback member of the `APPBARDATA` sent with `ABM_NEW`. -/
@[simp]
theorem newAbd_uCallbackMessage (hwnd : HWND) (c : Nat) :
    (newAbd hwnd c).uCallbackMessage = c := rfl

/-- Exit at line 69: the handle is not a window. -/
theorem RegisterAppBar_invalid (env : Env) (s : Sys) (hwnd : HWND) (height : LONG)
    (edgeArg : Option LONG) (hw : env.isWindow hwnd = false) :
    RegisterAppBar env s hwnd height edgeArg = ⟨.invalidWindow, s, []⟩ := by
  simp [RegisterAppBar, hw]

/-- Exit at line 77: the window is registered already. -/
theorem RegisterAppBar_already (env : Env) (s : Sys) (hwnd : HWND) (height : LONG)
    (edgeArg : Option LONG) (hw : env.isWindow hwnd = true)
    (hr : IsAppBarRegistered s hwnd = true) :
    RegisterAppBar env s hwnd height edgeArg = ⟨.alreadyRegistered, s, []⟩ := by
  simp [RegisterAppBar, hw, hr]

/-- Exit at line 95: the shell refuses; only the counter has advanced. -/
theorem RegisterAppBar_refused (env : Env) (s : Sys) (hwnd : HWND) (height : LONG)
    (edgeArg : Option LONG) (hw : env.isWindow hwnd = true)
    (hr : IsAppBarRegistered s hwnd = false)
    (hc : env.shellNew (newAbd hwnd s.g_nextCallbackMsg) = false) :
    RegisterAppBar env s hwnd height edgeArg
      = ⟨.shellFailed,
          { s with g_nextCallbackMsg := (s.g_nextCallbackMsg + 1) % UINT_SIZE },
          [.shell .ABM_NEW (newAbd hwnd s.g_nextCallbackMsg)]⟩ := by
  simp [RegisterAppBar, hw, hr, hc]

/-- Exit at line 171: the counter has advanced, its old value was sent with
`ABM_NEW` and is stored in the record assigned to the window. -/
theorem RegisterAppBar_accepted (env : Env) (s : Sys) (hwnd : HWND) (height : LONG)
    (edgeArg : Option LONG) (hw : env.isWindow hwnd = true)
    (hr : IsAppBarRegistered s hwnd = false)
    (hc : env.shellNew (newAbd hwnd s.g_nextCallbackMsg) = true) :
    (RegisterAppBar env s hwnd height edgeArg).sys.g_nextCallbackMsg
        = (s.g_nextCallbackMsg + 1) % UINT_SIZE
      ∧ allocatedIds (RegisterAppBar env s hwnd height edgeArg).events = [s.g_nextCallbackMsg]
      ∧ ∃ st : AppBarState, st.isRegistered = true ∧ st.callbackMsg = s.g_nextCallbackMsg
          ∧ (RegisterAppBar env s hwnd height edgeArg).sys.g_appbars
              = mapAssign s.g_appbars hwnd st := by
  refine ⟨?_, ?_, ?_⟩
  · simp [RegisterAppBar, hw, hr, hc, MoveWindow]
  · simp [RegisterAppBar, hw, hr, hc, allocatedIds, allocatedId]
  · simp only [RegisterAppBar, hw, hr, hc, MoveWindow]
    exact ⟨_, rfl, rfl, rfl⟩

/-! ## Invariants of a session -/

/-- What every call preserves: keys increasing, records live, callback messages
among the allocated ones; a call allocates nothing, or allocates the value of
the counter and advances the counter by one modulo `2 ^ 32`. -/
theorem step_invariant (env : Env) (s : Sys) (c : Call) (A : List Nat)
    (hs : MapSorted s.g_appbars) (hl : AllLive s.g_appbars)
    (hsub : (regIds s.g_appbars).Subperm A) :
    MapSorted (step env s c).1.g_appbars ∧ AllLive (step env s c).1.g_appbars
      ∧ (regIds (step env s c).1.g_appbars).Subperm (A ++ allocatedIds (step env s c).2)
      ∧ ((allocatedIds (step env s c).2 = []
            ∧ (step env s c).1.g_nextCallbackMsg = s.g_nextCallbackMsg)
          ∨ (allocatedIds (step env s c).2 = [s.g_nextCallbackMsg]
            ∧ (step env s c).1.g_nextCallbackMsg = (s.g_nextCallbackMsg + 1) % UINT_SIZE)) := by
  cases c with
  | register hwnd height edgeArg =>
    simp only [step]
    cases hw : env.isWindow hwnd with
    | false =>
      rw [RegisterAppBar_invalid env s hwnd height edgeArg hw]
      simp [allocatedIds, hs, hl, hsub]
    | true =>
      cases hr : IsAppBarRegistered s hwnd with
      | true =>
        rw [RegisterAppBar_already env s hwnd height edgeArg hw hr]
        simp [allocatedIds, hs, hl, hsub]
      | false =>
        cases hc : env.shellNew (newAbd hwnd s.g_nextCallbackMsg) with
        | false =>
          rw [RegisterAppBar_refused env s hwnd height edgeArg hw hr hc]
          refine ⟨hs, hl, ?_, Or.inr ⟨?_, rfl⟩⟩
          · exact hsub.trans (List.sublist_append_left _ _).subperm
          · simp [allocatedIds, allocatedId, newAbd]
        | true =>
          obtain ⟨h1, h2, st, h3, h4, h5⟩ :=
            RegisterAppBar_accepted env s hwnd height edgeArg hw hr hc
          rw [h5, h2]
          refine ⟨mapAssign_sorted _ _ _ hs, ?_, ?_, Or.inr ⟨rfl, h1⟩⟩
          · intro p hp
            rcases mem_mapAssign _ _ _ p hp with h | h
            · rw [h]
              exact h3
            · exact hl p h
          · refine (regIds_mapAssign _ _ _).trans ?_
            rw [h4]
            exact ((List.subperm_cons _).mpr hsub).trans
              (List.perm_append_singleton _ _).symm.subperm
  | update hwnd =>
    simp only [step]
    unfold UpdateAppBarPosition
    split
    · simp [allocatedIds, hs, hl, hsub]
    · split_ifs
      · simp [allocatedIds, hs, hl, hsub]
      · simp [allocatedIds, allocatedId, MoveWindow, hs, hl, hsub]
  | unregister hwnd =>
    simp only [step]
    unfold UnregisterAppBar
    split
    · simp [allocatedIds, hs, hl, hsub]
    · split_ifs
      · simp [allocatedIds, hs, hl, hsub]
      · simp only [MoveWindow, allocatedIds, List.filterMap_cons, allocatedId,
          List.filterMap_nil, List.append_nil]
        refine ⟨mapErase_sorted _ _ hs, ?_, ?_, Or.inl ⟨trivial, trivial⟩⟩
        · intro p hp
          exact hl p ((mapErase_sublist _ _).subset hp)
        · exact (((mapErase_sublist s.g_appbars hwnd).map _).subperm).trans hsub
  | cleanupAll =>
    simp only [step, CleanupAllAppBars]
    refine ⟨by simp [MapSorted], by simp [AllLive], by simp [regIds, List.nil_subperm], ?_⟩
    left
    refine ⟨?_, trivial⟩
    have : ∀ m : List (HWND × AppBarState), allocatedIds (cleanupLoop m) = [] := by
      intro m
      induction m with
      | nil => rfl
      | cons p t ih =>
        obtain ⟨k1, v1⟩ := p
        unfold cleanupLoop
        split_ifs
        · simpa [allocatedIds, allocatedId] using ih
        · exact ih
    exact this _

/-- The allocations of two consecutive lists of actions. -/
theorem allocatedIds_append (a b : List Event) :
    allocatedIds (a ++ b) = allocatedIds a ++ allocatedIds b := by
  simp [allocatedIds, List.filterMap_append]

/-- What every session preserves; the allocated callback messages are the
consecutive values of the counter modulo `2 ^ 32`. -/
theorem run_invariant (ops : List (Env × Call)) :
    ∀ (s : Sys) (A : List Nat), MapSorted s.g_appbars → AllLive s.g_appbars →
      (regIds s.g_appbars).Subperm A → s.g_nextCallbackMsg < UINT_SIZE →
      MapSorted (run ops s).1.g_appbars ∧ AllLive (run ops s).1.g_appbars
        ∧ (regIds (run ops s).1.g_appbars).Subperm (A ++ allocatedIds (run ops s).2)
        ∧ allocatedIds (run ops s).2
            = (List.range (allocatedIds (run ops s).2).length).map
                (fun i => (s.g_nextCallbackMsg + i) % UINT_SIZE)
        ∧ (run ops s).1.g_nextCallbackMsg
            = (s.g_nextCallbackMsg + (allocatedIds (run ops s).2).length) % UINT_SIZE := by
  induction ops with
  | nil =>
    intro s A hs hl hsub hc
    simp only [run, allocatedIds, List.filterMap_nil, List.append_nil, List.length_nil,
      List.range_zero, List.map_nil, Nat.add_zero]
    exact ⟨hs, hl, hsub, trivial, (Nat.mod_eq_of_lt hc).symm⟩
  | cons op rest ih =>
    intro s A hs hl hsub hc
    obtain ⟨env, c⟩ := op
    obtain ⟨h1, h2, h3, h4⟩ := step_invariant env s c A hs hl hsub
    have hc2 : (step env s c).1.g_nextCallbackMsg < UINT_SIZE := by
      rcases h4 with h4 | h4
      · rw [h4.2]
        exact hc
      · rw [h4.2]
        exact Nat.mod_lt _ (by decide)
    obtain ⟨i1, i2, i3, i4, i5⟩ :=
      ih (step env s c).1 (A ++ allocatedIds (step env s c).2) h1 h2 h3 hc2
    simp only [run, allocatedIds_append]
    refine ⟨i1, i2, ?_, ?_, ?_⟩
    · rw [← List.append_assoc]
      exact i3
    · rcases h4 with h4 | h4
      · rw [h4.1, List.nil_append]
        rw [h4.2] at i4
        exact i4
      · rw [h4.1, List.singleton_append, List.length_cons, List.range_succ_eq_map,
          List.map_cons, List.map_map]
        rw [h4.2] at i4
        rw [Nat.add_zero, Nat.mod_eq_of_lt hc]
        congr 1
        rw [i4, List.length_map, List.length_range]
        apply List.map_congr_left
        intro i _
        simp only [Function.comp, UINT_SIZE]
        omega
    · rcases h4 with h4 | h4
      · rw [h4.1, List.nil_append, i5, h4.2]
      · rw [h4.1, List.singleton_append, List.length_cons, i5, h4.2]
        simp only [UINT_SIZE]
        omega

/-- Every state that a session reaches from a freshly loaded module has a map
with increasing keys in which every record is live. -/
theorem reachable_sorted_live (windowRect : HWND → RECT) (ops : List (Env × Call)) :
    MapSorted (run ops (Sys.init windowRect)).1.g_appbars
      ∧ AllLive (run ops (Sys.init windowRect)).1.g_appbars := by
  obtain ⟨h1, h2, _⟩ := run_invariant ops (Sys.init windowRect) []
    (by simp [Sys.init, MapSorted]) (by simp [Sys.init, AllLive])
    (by simp [Sys.init, regIds]) (by simp [Sys.init, WM_USER, UINT_SIZE])
  exact ⟨h1, h2⟩

/-- At most `2 ^ 32` consecutive values of the counter are pairwise different. -/
theorem nodup_wrapping_ids (c n : Nat) (hn : n ≤ UINT_SIZE) :
    ((List.range n).map (fun i => (c + i) % UINT_SIZE)).Nodup := by
  apply List.Nodup.map_on
  · intro x hx y hy hxy
    have hx2 := List.mem_range.mp hx
    have hy2 := List.mem_range.mp hy
    simp only [UINT_SIZE] at hxy hn
    omega
  · exact List.nodup_range n

/-- The state after a session is the state after its remaining calls. -/
theorem run_cons_fst (env : Env) (c : Call) (rest : List (Env × Call)) (s : Sys) :
    (run ((env, c) :: rest) s).1 = (run rest (step env s c).1).1 := rfl

/-- The state after two consecutive sessions. -/
theorem run_append_fst (a b : List (Env × Call)) (s : Sys) :
    (run (a ++ b) s).1 = (run b (run a s).1).1 := by
  induction a generalizing s with
  | nil => rfl
  | cons op rest ih =>
    obtain ⟨env, c⟩ := op
    simp only [List.cons_append, run]
    exact ih _

/-- A run of `n` registrations that the shell refuses changes the counter only. -/
theorem run_refused (n : Nat) (env : Env) (hwnd : HWND) (height : LONG) (edgeArg : Option LONG)
    (hw : env.isWindow hwnd = true) (hc : ∀ abd, env.shellNew abd = false) :
    ∀ s : Sys, IsAppBarRegistered s hwnd = false → s.g_nextCallbackMsg < UINT_SIZE →
      (run (List.replicate n (env, Call.register hwnd height edgeArg)) s).1
        = { s with g_nextCallbackMsg := (s.g_nextCallbackMsg + n) % UINT_SIZE } := by
  induction n with
  | zero =>
    intro s _ hlt
    simp only [List.replicate, run, Nat.add_zero, Nat.mod_eq_of_lt hlt]
  | succ n ih =>
    intro s hr hlt
    simp only [List.replicate, run, step]
    rw [RegisterAppBar_refused env s hwnd height edgeArg hw hr (hc _)]
    have hpos : 0 < UINT_SIZE := by decide
    have hstep := ih { s with g_nextCallbackMsg := (s.g_nextCallbackMsg + 1) % UINT_SIZE }
      hr (Nat.mod_lt _ hpos)
    rw [hstep]
    simp only [UINT_SIZE]
    congr 1
    omega

/-! ## The claims -/

/-- C1 (edge math), as amended: for every rectangle `W` returned by
`GetMonitorWorkArea`, every logical height, every device resolution and each
of the four edges, when the shell returns the rectangle it is given unchanged
at `ABM_QUERYPOS` and at `ABM_SETPOS`, and the integer part of the binary64
product `height * dpiScale` and the rectangle of the edge table fit in 32
bits, a registration that reaches the shell yields the rectangle of the edge
table for `W` and `h`, where `h` is that integer part: the product with its
fractional part discarded (truncation toward zero). -/
theorem edge_math_truncated (env : Env) (s : Sys) (hwnd : HWND) (height : LONG) (e : Edge)
    (hw : env.isWindow hwnd = true) (hn : IsAppBarRegistered s hwnd = false)
    (hc : env.shellNew (newAbd hwnd s.g_nextCallbackMsg) = true)
    (hq : ∀ abd, env.shellQueryPos abd = abd.rc)
    (hs : ∀ abd, env.shellSetPos abd = abd.rc)
    (hh : Fits32 (physicalPixels height (env.deviceCaps hwnd)))
    (hfit : (specEdgeRect e (GetMonitorWorkArea env hwnd).toSpec
      (physicalPixels height (env.deviceCaps hwnd))).Fits) :
    (RegisterAppBar env s hwnd height (some e.code)).ret.rect.map RECT.toSpec
        = some (specEdgeRect e (GetMonitorWorkArea env hwnd).toSpec
            (physicalPixels height (env.deviceCaps hwnd)))
      ∧ physicalPixels height (env.deviceCaps hwnd)
        = (if 0 ≤ Dbl.toRat (Dbl.mul (Dbl.ofInt height.val)
                (Dbl.div (Dbl.ofInt (env.deviceCaps hwnd).val) (Dbl.ofInt 96)))
            then ⌊Dbl.toRat (Dbl.mul (Dbl.ofInt height.val)
                (Dbl.div (Dbl.ofInt (env.deviceCaps hwnd).val) (Dbl.ofInt 96)))⌋
            else ⌈Dbl.toRat (Dbl.mul (Dbl.ofInt height.val)
                (Dbl.div (Dbl.ofInt (env.deviceCaps hwnd).val) (Dbl.ofInt 96)))⌉) := by
  refine ⟨?_, Dbl.toInt_truncates _⟩
  have hval := physicalHeight_val height (env.deviceCaps hwnd) hh
  have hsh : scaleHeight height (GetDpiScaleFactor env hwnd)
      = physicalHeight height (env.deviceCaps hwnd) := rfl
  rw [← hval] at hfit ⊢
  rw [← specEdgeRect32_exact e _ _ hfit]
  simp [RegisterAppBar, hw, hn, hc, hq, hs, RegisterResult.rect, clampEdge_code, hsh,
    specEdgeRect32_idem]

/-- C1, the values of property P4: with the work area `{0, 40, 1920, 1080}`, the
top edge and the logical height 40, the registration yields `{0, 40, 1920, 80}`
at 96 dots per inch (scale 1.0) and `{0, 40, 1920, 100}` at 144 dots per inch
(scale 1.5). -/
theorem edge_math_truncated_witness :
    (exEnv exWorkP4 exWorkP4 96).isWindow 1 = true
      ∧ IsAppBarRegistered exSys 1 = false
      ∧ Fits32 (physicalPixels 40 ((exEnv exWorkP4 exWorkP4 144).deviceCaps 1))
      ∧ (RegisterAppBar (exEnv exWorkP4 exWorkP4 96) exSys 1 40
          (some EDGE_TOP)).ret.rect.map RECT.toSpec = some ⟨0, 40, 1920, 80⟩
      ∧ (RegisterAppBar (exEnv exWorkP4 exWorkP4 144) exSys 1 40
          (some EDGE_TOP)).ret.rect.map RECT.toSpec = some ⟨0, 40, 1920, 100⟩ :=
  ⟨rfl, by decide, by unfold Fits32; decide,
   (edge_math_truncated (exEnv exWorkP4 exWorkP4 96) exSys 1 40 Edge.Top rfl rfl rfl
      (fun _ => rfl) (fun _ => rfl) (by unfold Fits32; decide)
      (by unfold SpecRect.Fits Fits32; decide)).1.trans (by decide),
   (edge_math_truncated (exEnv exWorkP4 exWorkP4 144) exSys 1 40 Edge.Top rfl rfl rfl
      (fun _ => rfl) (fun _ => rfl) (by unfold Fits32; decide)
      (by unfold SpecRect.Fits Fits32; decide)).1.trans (by decide)⟩

/-- C1 as stated fails, in three ways. With the work area `{0, 40, 1920, 1080}`
and the top edge: the logical height 41 at 144 dots per inch (scale exactly
1.5) gives the bottom 101, while `W.top + logicalHeight × dpiScale` is
`40 + 61.5`; a shell that returns the proposal unchanged at `ABM_QUERYPOS` and
moves it at `ABM_SETPOS` gives `{0, 50, 1920, 90}`, not the rectangle
`{0, 40, 1920, 80}` of the table; the logical height 2147483647 at 192 dots
per inch has the product 4294967294, which no `int` holds, and gives the
bottom -2147483608. -/
theorem edge_math_untruncated_fails :
    ((RegisterAppBar (exEnv exWorkP4 exWorkP4 144) exSys 1 41
          (some EDGE_TOP)).ret.rect.map RECT.toSpec = some ⟨0, 40, 1920, 101⟩
      ∧ Dbl.toRat (GetDpiScaleFactor (exEnv exWorkP4 exWorkP4 144) 1) = 3 / 2
      ∧ ((101 : Int) : ℚ) ≠ ((exWorkP4.toSpec.top : Int) : ℚ)
          + specPhysicalHeight 41
              (Dbl.toRat (GetDpiScaleFactor (exEnv exWorkP4 exWorkP4 144) 1)))
    ∧ ((∀ abd, exEnvSetPosMoves.shellQueryPos abd = abd.rc)
      ∧ GetMonitorWorkArea exEnvSetPosMoves 1 = exWorkP4
      ∧ (RegisterAppBar exEnvSetPosMoves exSys 1 40
          (some EDGE_TOP)).ret.rect.map RECT.toSpec = some ⟨0, 50, 1920, 90⟩
      ∧ specEdgeRect Edge.Top exWorkP4.toSpec (physicalPixels 40 96) = ⟨0, 40, 1920, 80⟩)
    ∧ (physicalPixels 2147483647 192 = 4294967294
      ∧ (RegisterAppBar (exEnv exWorkP4 exWorkP4 192) exSys 1 2147483647
          (some EDGE_TOP)).ret.rect.map RECT.toSpec = some ⟨0, 40, 1920, -2147483608⟩
      ∧ specEdgeRect Edge.Top exWorkP4.toSpec (physicalPixels 2147483647 192)
          = ⟨0, 40, 1920, 4294967334⟩) := by
  have hd : GetDpiScaleFactor (exEnv exWorkP4 exWorkP4 144) 1 = ⟨6755399441055744, -52⟩ := by
    decide
  have hr : Dbl.toRat ⟨6755399441055744, -52⟩ = 3 / 2 := by
    simp only [Dbl.toRat]
    norm_num
  have ht : exWorkP4.toSpec.top = 40 := by decide
  refine ⟨⟨by decide, ?_, ?_⟩, ⟨fun _ => rfl, rfl, by decide, by decide⟩,
    ⟨by decide, by decide, by decide⟩⟩
  · rw [hd, hr]
  · rw [hd, hr, ht]
    simp only [specPhysicalHeight]
    norm_num

/-- C2 fails on the code: `GetMonitorWorkArea` returns `mi.rcMonitor`, the
bounding rectangle of the monitor, for every monitor; on a 1920x1080 monitor
with the work area `{0, 0, 1920, 1040}` it returns `{0, 0, 1920, 1080}`, not
the work area, and a registration at the bottom edge with height 40 takes
`{0, 1040, 1920, 1080}`, outside the work area. -/
theorem workArea_is_monitor_rect :
    GetMonitorWorkArea (exEnv exFullHD exTaskbarWork 96) 1 = ⟨0, 0, 1920, 1080⟩
      ∧ ((exEnv exFullHD exTaskbarWork 96).monitorInfo 1).rcWork = ⟨0, 0, 1920, 1040⟩
      ∧ GetMonitorWorkArea (exEnv exFullHD exTaskbarWork 96) 1
          ≠ ((exEnv exFullHD exTaskbarWork 96).monitorInfo 1).rcWork
      ∧ (RegisterAppBar (exEnv exFullHD exTaskbarWork 96) exSys 1 40
            (some EDGE_BOTTOM)).ret.rect = some ⟨0, 1040, 1920, 1080⟩
      ∧ (∀ (env : Env) (hwnd : HWND),
          GetMonitorWorkArea env hwnd = (env.monitorInfo hwnd).rcMonitor) := by
  refine ⟨by decide, by decide, by decide, by decide, ?_⟩
  intro env hwnd
  rfl

/-- C3 (atomic failure): for every state and every valid window without a
live record, when `ABM_NEW` fails the registration reports the failure, the
map is the map before, the window is not registered (and has no record at all
when every record of the map is live, as in every reachable state), the only
action is the `ABM_NEW` call itself, and no window has moved. -/
theorem register_atomic_failure (env : Env) (s : Sys) (hwnd : HWND) (height : LONG)
    (edgeArg : Option LONG)
    (hw : env.isWindow hwnd = true) (hn : IsAppBarRegistered s hwnd = false)
    (hc : env.shellNew (newAbd hwnd s.g_nextCallbackMsg) = false) :
    (RegisterAppBar env s hwnd height edgeArg).ret = RegisterResult.shellFailed
      ∧ (RegisterAppBar env s hwnd height edgeArg).sys.g_appbars = s.g_appbars
      ∧ IsAppBarRegistered (RegisterAppBar env s hwnd height edgeArg).sys hwnd = false
      ∧ (AllLive s.g_appbars →
          mapFind (RegisterAppBar env s hwnd height edgeArg).sys.g_appbars hwnd = none)
      ∧ (RegisterAppBar env s hwnd height edgeArg).events
          = [Event.shell ShellMsg.ABM_NEW (newAbd hwnd s.g_nextCallbackMsg)]
      ∧ (RegisterAppBar env s hwnd height edgeArg).sys.windowRect = s.windowRect := by
  rw [RegisterAppBar_refused env s hwnd height edgeArg hw hn hc]
  refine ⟨rfl, rfl, hn, ?_, rfl, rfl⟩
  intro hall
  cases hf : mapFind s.g_appbars hwnd with
  | none => rfl
  | some v =>
    have hlive := hall _ (mem_of_mapFind _ _ v hf)
    simp only [IsAppBarRegistered, hf] at hn
    rw [hn] at hlive
    cases hlive

/-- C3 at a concrete state: window 1 is registered, the shell refuses
window 2. -/
theorem register_atomic_failure_witness :
    exEnvRefuse.isWindow 2 = true
      ∧ IsAppBarRegistered exSysOne 2 = false
      ∧ exEnvRefuse.shellNew (newAbd 2 exSysOne.g_nextCallbackMsg) = false
      ∧ (RegisterAppBar exEnvRefuse exSysOne 2 40 none).ret = RegisterResult.shellFailed
      ∧ (RegisterAppBar exEnvRefuse exSysOne 2 40 none).sys.g_appbars = exSysOne.g_appbars
      ∧ IsAppBarRegistered (RegisterAppBar exEnvRefuse exSysOne 2 40 none).sys 2 = false
      ∧ (RegisterAppBar exEnvRefuse exSysOne 2 40 none).events
          = [Event.shell ShellMsg.ABM_NEW ⟨2, 1281, 0, ⟨0, 0, 0, 0⟩⟩] :=
  have h := register_atomic_failure exEnvRefuse exSysOne 2 40 none rfl (by decide) rfl
  ⟨rfl, by decide, rfl, h.1, h.2.1, h.2.2.1, h.2.2.2.2.1.trans (by decide)⟩

/-- C4 (restore on unregister): for every valid window that is not registered and
has the rectangle `R0`, whatever the edge, the height, the resolution and the
answer of the shell to the query, when `ABM_NEW` succeeds the registration
succeeds, the following `UnregisterAppBar` returns `true`, and the rectangle of
the window is `R0` again, in all four coordinates. -/
theorem unregister_restores (env : Env) (s : Sys) (hwnd : HWND) (height : LONG)
    (edgeArg : Option LONG)
    (hw : env.isWindow hwnd = true) (hn : IsAppBarRegistered s hwnd = false)
    (hc : env.shellNew (newAbd hwnd s.g_nextCallbackMsg) = true) :
    (RegisterAppBar env s hwnd height edgeArg).ret.rect ≠ none
      ∧ (UnregisterAppBar (RegisterAppBar env s hwnd height edgeArg).sys hwnd).ret = true
      ∧ (UnregisterAppBar (RegisterAppBar env s hwnd height edgeArg).sys hwnd).sys.windowRect hwnd
          = s.windowRect hwnd := by
  have hn2 := hn
  simp only [IsAppBarRegistered] at hn2
  have hfind : ∀ st, mapFind (RegisterAppBar env s hwnd height edgeArg).sys.g_appbars hwnd
      = some st → st.isRegistered = true ∧ st.originalRect = s.windowRect hwnd := by
    intro st hst
    simp [RegisterAppBar, hw, hn, hc, IsAppBarRegistered, hn2, MoveWindow,
      mapFind_mapAssign_self] at hst
    subst hst
    simp
  have hsome : ∃ st, mapFind (RegisterAppBar env s hwnd height edgeArg).sys.g_appbars hwnd
      = some st := by
    simp [RegisterAppBar, hw, hn, hc, IsAppBarRegistered, hn2, MoveWindow,
      mapFind_mapAssign_self]
  obtain ⟨st, hst⟩ := hsome
  obtain ⟨h1, h2⟩ := hfind st hst
  refine ⟨?_, ?_, ?_⟩
  · simp [RegisterAppBar, hw, hn, hc, IsAppBarRegistered, hn2, RegisterResult.rect]
  · simp [UnregisterAppBar, hst, h1]
  · simp [UnregisterAppBar, hst, h1, MoveWindow, h2, LONG.add_sub_cancel]

/-- C4 at a concrete state: window 1 at `{100, 100, 900, 700}` registers at the
left edge with a shell that moves every side of the proposal, then
unregisters. -/
theorem unregister_restores_witness :
    exEnvShift.isWindow 1 = true
      ∧ IsAppBarRegistered exSys 1 = false
      ∧ (RegisterAppBar exEnvShift exSys 1 40 (some EDGE_LEFT)).sys.windowRect 1
          = ⟨5, 30, 45, 1091⟩
      ∧ (UnregisterAppBar (RegisterAppBar exEnvShift exSys 1 40 (some EDGE_LEFT)).sys 1).ret
          = true
      ∧ (UnregisterAppBar
            (RegisterAppBar exEnvShift exSys 1 40 (some EDGE_LEFT)).sys 1).sys.windowRect 1
          = ⟨100, 100, 900, 700⟩ :=
  have h := unregister_restores exEnvShift exSys 1 40 (some EDGE_LEFT) rfl (by decide) rfl
  ⟨rfl, by decide, by decide, h.2.1, h.2.2.trans (by decide)⟩

/-- C5 (idempotent registration), as amended: for every state in which a valid
(currently existing) window has a live record, `RegisterAppBar` on that window
returns `true`, performs no action on the shell or on a window, and leaves the
whole state as it was: the record of the window is the same, and it is the
only one for that window in a map with increasing keys. -/
theorem reregister_is_noop (env : Env) (s : Sys) (hwnd : HWND) (height : LONG)
    (edgeArg : Option LONG)
    (hw : env.isWindow hwnd = true) (hl : IsAppBarRegistered s hwnd = true) :
    (RegisterAppBar env s hwnd height edgeArg).ret = RegisterResult.alreadyRegistered
      ∧ (RegisterAppBar env s hwnd height edgeArg).events = []
      ∧ (RegisterAppBar env s hwnd height edgeArg).sys = s
      ∧ mapFind (RegisterAppBar env s hwnd height edgeArg).sys.g_appbars hwnd
          = mapFind s.g_appbars hwnd
      ∧ (MapSorted s.g_appbars →
          ((RegisterAppBar env s hwnd height edgeArg).sys.g_appbars.map Prod.fst).count hwnd
            = 1) := by
  have hl2 := hl
  simp only [IsAppBarRegistered] at hl2
  have hret : RegisterAppBar env s hwnd height edgeArg = ⟨.alreadyRegistered, s, []⟩ := by
    simp [RegisterAppBar, hw, hl]
  rw [hret]
  refine ⟨rfl, rfl, rfl, rfl, ?_⟩
  intro hs
  cases hf : mapFind s.g_appbars hwnd with
  | none => simp [hf] at hl2
  | some v => exact sorted_keys_count _ _ v hs hf

/-- C5 at a concrete state: window 1 is registered and registers again with
other arguments. -/
theorem reregister_is_noop_witness :
    (exEnv exFullHD exFullHD 144).isWindow 1 = true
      ∧ IsAppBarRegistered exSysOne 1 = true
      ∧ (RegisterAppBar (exEnv exFullHD exFullHD 144) exSysOne 1 60 (some EDGE_TOP)).ret
          = RegisterResult.alreadyRegistered
      ∧ (RegisterAppBar (exEnv exFullHD exFullHD 144) exSysOne 1 60 (some EDGE_TOP)).events
          = []
      ∧ mapFind
          (RegisterAppBar (exEnv exFullHD exFullHD 144) exSysOne 1 60
            (some EDGE_TOP)).sys.g_appbars 1
          = some ⟨1, 1280, true, ⟨100, 100, 900, 700⟩, 3, 48⟩ :=
  have h := reregister_is_noop (exEnv exFullHD exFullHD 144) exSysOne 1 60 (some EDGE_TOP)
    rfl (by decide)
  ⟨rfl, by decide, h.1, h.2.1, h.2.2.2.1.trans (by decide)⟩

/-- C5 as stated fails: window 1 has a live record, its handle is no longer a
window, and `RegisterAppBar` on it does not succeed: line 69 throws before the
map is consulted. -/
theorem reregister_invalid_window_fails :
    IsAppBarRegistered exSysOne 1 = true
      ∧ (RegisterAppBar exEnvGone exSysOne 1 48 (some EDGE_BOTTOM)).ret
          = RegisterResult.invalidWindow := by
  decide

/-- C6 (not registered): for every state and every window without a live record,
`UpdateAppBarPosition` returns `false` and `UnregisterAppBar` returns `false`,
and neither performs any action on the shell or on a window nor changes the
state. -/
theorem not_registered_handling (env : Env) (s : Sys) (hwnd : HWND)
    (hn : IsAppBarRegistered s hwnd = false) :
    (UpdateAppBarPosition env s hwnd).ret = UpdateResult.notRegistered
      ∧ (UpdateAppBarPosition env s hwnd).events = []
      ∧ (UpdateAppBarPosition env s hwnd).sys = s
      ∧ (UnregisterAppBar s hwnd).ret = false
      ∧ (UnregisterAppBar s hwnd).events = []
      ∧ (UnregisterAppBar s hwnd).sys = s := by
  simp only [IsAppBarRegistered] at hn
  cases hf : mapFind s.g_appbars hwnd with
  | none => simp [UpdateAppBarPosition, UnregisterAppBar, hf]
  | some v =>
    simp [hf] at hn
    simp [UpdateAppBarPosition, UnregisterAppBar, hf, hn]

/-- C6 at a concrete state: window 1 is registered, window 2 is not. -/
theorem not_registered_handling_witness :
    IsAppBarRegistered exSysOne 2 = false
      ∧ (UpdateAppBarPosition exEnvShift exSysOne 2).ret = UpdateResult.notRegistered
      ∧ (UpdateAppBarPosition exEnvShift exSysOne 2).events = []
      ∧ (UnregisterAppBar exSysOne 2).ret = false
      ∧ (UnregisterAppBar exSysOne 2).events = [] :=
  have h := not_registered_handling exEnvShift exSysOne 2 (by decide)
  ⟨by decide, h.1, h.2.1, h.2.2.2.1, h.2.2.2.2.1⟩

/-- C7 (recomputation by update): for every window with a live record,
`UpdateAppBarPosition` computes `h` from the stored `height` and the
resolution of the device at the time of this call, proposes a rectangle for
the stored `edge`, re-clamps the answer of the shell for the stored `edge`,
commits it, and reports and moves the window to the rectangle that the shell
leaves; the map, the record and the counter are unchanged. For each of the
four edges the proposed and the committed rectangles are those of the edge
table in 32-bit arithmetic, and when the shell returns the rectangles it is
given unchanged and the values fit in 32 bits, the result is the rectangle of
the edge table of the specification for the integer part of
`height * dpiScale`. -/
theorem update_recomputes (env : Env) (s : Sys) (hwnd : HWND) (st : AppBarState)
    (hf : mapFind s.g_appbars hwnd = some st) (hr : st.isRegistered = true) :
    let W := GetMonitorWorkArea env hwnd
    let h := physicalHeight st.height (env.deviceCaps hwnd)
    let proposed : APPBARDATA :=
      { hWnd := hwnd, uCallbackMessage := 0, uEdge := toUINT st.edge,
        rc := clampEdge st.edge W h }
    let committed : APPBARDATA :=
      { proposed with rc := clampEdge st.edge (env.shellQueryPos proposed) h }
    let F := env.shellSetPos committed
    (UpdateAppBarPosition env s hwnd).ret
        = UpdateResult.ok F.left F.top (F.right - F.left) (F.bottom - F.top)
      ∧ (UpdateAppBarPosition env s hwnd).sys.windowRect hwnd = F
      ∧ (UpdateAppBarPosition env s hwnd).events
          = [Event.shell ShellMsg.ABM_QUERYPOS proposed,
             Event.shell ShellMsg.ABM_SETPOS committed,
             Event.moveWindow hwnd F.left F.top (F.right - F.left) (F.bottom - F.top)]
      ∧ (UpdateAppBarPosition env s hwnd).sys.g_appbars = s.g_appbars
      ∧ mapFind (UpdateAppBarPosition env s hwnd).sys.g_appbars hwnd = some st
      ∧ (UpdateAppBarPosition env s hwnd).sys.g_nextCallbackMsg = s.g_nextCallbackMsg
      ∧ (∀ e : Edge, st.edge = e.code →
          proposed.rc = specEdgeRect32 e W h
          ∧ committed.rc = specEdgeRect32 e (env.shellQueryPos proposed) h
          ∧ ((∀ abd, env.shellQueryPos abd = abd.rc) →
              (∀ abd, env.shellSetPos abd = abd.rc) →
              Fits32 (physicalPixels st.height (env.deviceCaps hwnd)) →
              (specEdgeRect e W.toSpec
                (physicalPixels st.height (env.deviceCaps hwnd))).Fits →
              F.toSpec = specEdgeRect e W.toSpec
                (physicalPixels st.height (env.deviceCaps hwnd)))) := by
  have hsh : scaleHeight st.height (GetDpiScaleFactor env hwnd)
      = physicalHeight st.height (env.deviceCaps hwnd) := rfl
  refine ⟨?_, ?_, ?_, ?_, ?_, ?_, ?_⟩
  · simp [UpdateAppBarPosition, hf, hr, hsh]
  · simp [UpdateAppBarPosition, hf, hr, hsh, MoveWindow, LONG.add_sub_cancel]
  · simp [UpdateAppBarPosition, hf, hr, hsh]
  · simp [UpdateAppBarPosition, hf, hr, MoveWindow]
  · simp [UpdateAppBarPosition, hf, hr, MoveWindow]
  · simp [UpdateAppBarPosition, hf, hr, MoveWindow]
  · intro e he
    refine ⟨?_, ?_, ?_⟩
    · simp only [he, clampEdge_code]
    · simp only [he, clampEdge_code]
    · intro hq hs hh hfit
      have hval := physicalHeight_val st.height (env.deviceCaps hwnd) hh
      rw [← hval] at hfit ⊢
      rw [← specEdgeRect32_exact e _ _ hfit]
      simp [he, hq, hs, clampEdge_code, specEdgeRect32_idem]

/-- C7, the scenario: on a 1920x1080 monitor whose work area is the whole monitor,
registering window 1 at the bottom edge with height 48 at 96 dots per inch
gives `{0, 1032, 1920, 1080}`; an update at 192 dots per inch (scale 2.0) gives
`{0, 984, 1920, 1080}`, 96 pixels high, and the record is unchanged. -/
theorem update_recomputes_witness :
    (RegisterAppBar (exEnv exFullHD exFullHD 96) exSys 1 48 (some EDGE_BOTTOM)).ret.rect
        = some ⟨0, 1032, 1920, 1080⟩
      ∧ mapFind exSysOne.g_appbars 1 = some ⟨1, 1280, true, ⟨100, 100, 900, 700⟩, 3, 48⟩
      ∧ (UpdateAppBarPosition (exEnv exFullHD exFullHD 192) exSysOne 1).ret
          = UpdateResult.ok 0 984 1920 96
      ∧ (UpdateAppBarPosition (exEnv exFullHD exFullHD 192) exSysOne 1).sys.windowRect 1
          = ⟨0, 984, 1920, 1080⟩
      ∧ ((UpdateAppBarPosition (exEnv exFullHD exFullHD 192) exSysOne 1).sys.windowRect 1).toSpec
          = specEdgeRect Edge.Bottom exFullHD.toSpec 96
      ∧ mapFind (UpdateAppBarPosition (exEnv exFullHD exFullHD 192) exSysOne 1).sys.g_appbars 1
          = some ⟨1, 1280, true, ⟨100, 100, 900, 700⟩, 3, 48⟩ := by
  have hf : mapFind exSysOne.g_appbars 1 = some ⟨1, 1280, true, ⟨100, 100, 900, 700⟩, 3, 48⟩ := by
    decide
  have h := update_recomputes (exEnv exFullHD exFullHD 192) exSysOne 1 _ hf rfl
  have hexact := (h.2.2.2.2.2.2 Edge.Bottom rfl).2.2 (fun _ => rfl) (fun _ => rfl)
    (by unfold Fits32; decide) (by unfold SpecRect.Fits Fits32; decide)
  exact ⟨by decide, hf, h.1.trans (by decide), h.2.1.trans (by decide),
    (congrArg RECT.toSpec h.2.1).trans (hexact.trans (by decide)), h.2.2.2.2.1⟩

/-- C8 (cleanup clears all): for every state, `CleanupAllAppBars` returns `true`,
leaves the map empty, so that no window is registered, moves no window, and
its actions are `ABM_REMOVE` calls for entries with `isRegistered` set; in a
map with increasing keys there is exactly one call for each registered window
and none for any other. -/
theorem cleanup_clears_all (s : Sys) :
    (CleanupAllAppBars s).ret = true
      ∧ (CleanupAllAppBars s).sys.g_appbars = []
      ∧ (∀ w, IsAppBarRegistered (CleanupAllAppBars s).sys w = false)
      ∧ (CleanupAllAppBars s).sys.windowRect = s.windowRect
      ∧ (∀ ev ∈ (CleanupAllAppBars s).events, ∃ p ∈ s.g_appbars, p.2.isRegistered = true
          ∧ ev = Event.shell ShellMsg.ABM_REMOVE (newAbd p.1 0))
      ∧ (MapSorted s.g_appbars → ∀ w,
          (CleanupAllAppBars s).events.count (Event.shell ShellMsg.ABM_REMOVE (newAbd w 0))
            = if IsAppBarRegistered s w = true then 1 else 0) := by
  refine ⟨rfl, rfl, ?_, rfl, ?_, ?_⟩
  · intro w
    simp [CleanupAllAppBars, IsAppBarRegistered, mapFind]
  · intro ev hev
    obtain ⟨k, v, hm, hl, he⟩ := mem_cleanupLoop s.g_appbars ev hev
    exact ⟨(k, v), hm, hl, he⟩
  · intro hs w
    exact cleanupLoop_count s.g_appbars hs w

/-- C8 at a concrete state: windows 1 and 2 are registered. -/
theorem cleanup_clears_all_witness :
    MapSorted exSysTwo.g_appbars
      ∧ IsAppBarRegistered exSysTwo 1 = true
      ∧ IsAppBarRegistered exSysTwo 2 = true
      ∧ (CleanupAllAppBars exSysTwo).events
          = [Event.shell ShellMsg.ABM_REMOVE (newAbd 1 0),
             Event.shell ShellMsg.ABM_REMOVE (newAbd 2 0)]
      ∧ IsAppBarRegistered (CleanupAllAppBars exSysTwo).sys 1 = false
      ∧ IsAppBarRegistered (CleanupAllAppBars exSysTwo).sys 2 = false
      ∧ (CleanupAllAppBars exSysTwo).events.count
          (Event.shell ShellMsg.ABM_REMOVE (newAbd 2 0)) = 1 := by
  have hs : MapSorted exSysTwo.g_appbars := by
    unfold MapSorted
    decide
  have h := cleanup_clears_all exSysTwo
  exact ⟨hs, by decide, by decide, by decide, h.2.2.1 1, h.2.2.1 2,
    (h.2.2.2.2.2 hs 2).trans (by decide)⟩

/-- C9 (unique channel ids), as amended: in every state reached from a freshly
loaded module by a session of register, update, unregister and cleanup calls,
with any answers of the shell, in which at most `2 ^ 32` callback messages were
allocated, no callback message was allocated twice, the records of the map
carry pairwise different callback messages, two different windows with records
have different callback messages, and every stored callback message is one
that was allocated. -/
theorem unique_channel_ids_bounded (windowRect : HWND → RECT) (ops : List (Env × Call))
    (hbound : (allocatedIds (run ops (Sys.init windowRect)).2).length ≤ UINT_SIZE) :
    (allocatedIds (run ops (Sys.init windowRect)).2).Nodup
      ∧ ((run ops (Sys.init windowRect)).1.g_appbars.map (fun p => p.2.callbackMsg)).Nodup
      ∧ (∀ (w1 w2 : HWND) (r1 r2 : AppBarState), w1 ≠ w2 →
          mapFind (run ops (Sys.init windowRect)).1.g_appbars w1 = some r1 →
          mapFind (run ops (Sys.init windowRect)).1.g_appbars w2 = some r2 →
          r1.callbackMsg ≠ r2.callbackMsg)
      ∧ (∀ (w : HWND) (r : AppBarState),
          mapFind (run ops (Sys.init windowRect)).1.g_appbars w = some r →
          r.callbackMsg ∈ allocatedIds (run ops (Sys.init windowRect)).2) := by
  obtain ⟨_, _, h3, h4, _⟩ := run_invariant ops (Sys.init windowRect) []
    (by simp [Sys.init, MapSorted]) (by simp [Sys.init, AllLive])
    (by simp [Sys.init, regIds]) (by simp [Sys.init, WM_USER, UINT_SIZE])
  have hnd : (allocatedIds (run ops (Sys.init windowRect)).2).Nodup := by
    rw [h4]
    exact nodup_wrapping_ids _ _ hbound
  rw [List.nil_append] at h3
  have hreg : (regIds (run ops (Sys.init windowRect)).1.g_appbars).Nodup := by
    obtain ⟨l, hp, hsl⟩ := h3
    exact hp.nodup_iff.mp (hnd.sublist hsl)
  refine ⟨hnd, hreg, ?_, ?_⟩
  · intro w1 w2 r1 r2 hne hf1 hf2 heq
    have hm1 := mem_of_mapFind _ _ _ hf1
    have hm2 := mem_of_mapFind _ _ _ hf2
    have := List.inj_on_of_nodup_map hreg hm1 hm2 heq
    exact hne (congrArg Prod.fst this)
  · intro w r hf
    have hm := mem_of_mapFind _ _ _ hf
    have hin : r.callbackMsg ∈ regIds (run ops (Sys.init windowRect)).1.g_appbars :=
      List.mem_map.mpr ⟨(w, r), hm, rfl⟩
    exact h3.subset hin

/-- C9 at a concrete session: four allocations, 1280 to 1283; window 1, registered
again after its unregistration, carries a new callback message. -/
theorem unique_channel_ids_bounded_witness :
    (allocatedIds (run exCalls exSys).2).length ≤ UINT_SIZE
      ∧ allocatedIds (run exCalls exSys).2 = [1280, 1281, 1282, 1283]
      ∧ (run exCalls exSys).1.g_appbars.map (fun p => (p.1, p.2.callbackMsg))
          = [(1, 1283), (2, 1281)]
      ∧ (allocatedIds (run exCalls exSys).2).Nodup :=
  ⟨by decide, by decide, by decide,
    (unique_channel_ids_bounded (fun _ => ⟨100, 100, 900, 700⟩) exCalls (by decide)).1⟩

/-- C9 as stated fails: `g_nextCallbackMsg` is a `UINT`; after window 1 registered
with the callback message 1280 and the shell refused `2 ^ 32 - 1`
registrations, the counter is 1280 again and window 2 receives the callback
message of the live record of window 1. -/
theorem channel_id_reused_after_wraparound :
    (run exWrapCalls exSys).1.g_appbars.map (fun p => (p.1, p.2.callbackMsg))
      = [(1, 1280), (2, 1280)] := by
  have h0 : (step (exEnv exFullHD exFullHD 96) exSys (Call.register 1 48 (some EDGE_BOTTOM))).1
      = exSysOne := rfl
  unfold exWrapCalls
  rw [run_cons_fst, run_append_fst, h0,
    run_refused (UINT_SIZE - 1) exEnvRefuse 2 40 none rfl (fun _ => rfl) exSysOne
      (by decide) (by decide)]
  decide

/-- C10 (two-pass clamp), as amended: in `RegisterAppBar` and in
`UpdateAppBarPosition`, for each of the four edges and every rectangle `S` that
the shell returns from `ABM_QUERYPOS`, the rectangle `R` sent with `ABM_SETPOS`
has the thickness `h` along the edge in 32-bit arithmetic, where `h` is the
physical height, keeps the anchored side and the two perpendicular sides of
`S`, and is the rectangle of the edge table of the specification for `S` and
`h` whenever that rectangle fits in 32 bits; `MoveWindow` is called with the
rectangle `F` that the shell leaves in `abd.rc` after `ABM_SETPOS`, the
rectangle of the window becomes `F`, and `F` is what the caller receives; `F`
is `R` whenever the shell leaves `R` unchanged. -/
theorem two_pass_clamp (env : Env) (s : Sys) (hwnd : HWND) (e : Edge) (height : LONG)
    (st : AppBarState) :
    (env.isWindow hwnd = true → IsAppBarRegistered s hwnd = false →
      env.shellNew (newAbd hwnd s.g_nextCallbackMsg) = true →
      let h := physicalHeight height (env.deviceCaps hwnd)
      let proposed : APPBARDATA :=
        { hWnd := hwnd, uCallbackMessage := s.g_nextCallbackMsg, uEdge := toUINT e.code,
          rc := specEdgeRect32 e (GetMonitorWorkArea env hwnd) h }
      let S := env.shellQueryPos proposed
      let R := specEdgeRect32 e S h
      let F := env.shellSetPos { proposed with rc := R }
      ClampedTo e h S R
        ∧ ((specEdgeRect e S.toSpec h.val).Fits → R.toSpec = specEdgeRect e S.toSpec h.val)
        ∧ (RegisterAppBar env s hwnd height (some e.code)).events
            = [Event.shell ShellMsg.ABM_NEW (newAbd hwnd s.g_nextCallbackMsg),
               Event.shell ShellMsg.ABM_QUERYPOS proposed,
               Event.shell ShellMsg.ABM_SETPOS { proposed with rc := R },
               Event.moveWindow hwnd F.left F.top (F.right - F.left) (F.bottom - F.top)]
        ∧ (RegisterAppBar env s hwnd height (some e.code)).sys.windowRect hwnd = F
        ∧ (RegisterAppBar env s hwnd height (some e.code)).ret
            = RegisterResult.ok F.left F.top F.right F.bottom (F.right - F.left)
                (F.bottom - F.top) (GetDpiScaleFactor env hwnd)
        ∧ (env.shellSetPos { proposed with rc := R } = R →
            (RegisterAppBar env s hwnd height (some e.code)).sys.windowRect hwnd = R))
    ∧ (mapFind s.g_appbars hwnd = some st → st.isRegistered = true → st.edge = e.code →
      let h := physicalHeight st.height (env.deviceCaps hwnd)
      let proposed : APPBARDATA :=
        { hWnd := hwnd, uCallbackMessage := 0, uEdge := toUINT e.code,
          rc := specEdgeRect32 e (GetMonitorWorkArea env hwnd) h }
      let S := env.shellQueryPos proposed
      let R := specEdgeRect32 e S h
      let F := env.shellSetPos { proposed with rc := R }
      ClampedTo e h S R
        ∧ ((specEdgeRect e S.toSpec h.val).Fits → R.toSpec = specEdgeRect e S.toSpec h.val)
        ∧ (UpdateAppBarPosition env s hwnd).events
            = [Event.shell ShellMsg.ABM_QUERYPOS proposed,
               Event.shell ShellMsg.ABM_SETPOS { proposed with rc := R },
               Event.moveWindow hwnd F.left F.top (F.right - F.left) (F.bottom - F.top)]
        ∧ (UpdateAppBarPosition env s hwnd).sys.windowRect hwnd = F
        ∧ (UpdateAppBarPosition env s hwnd).ret
            = UpdateResult.ok F.left F.top (F.right - F.left) (F.bottom - F.top)
        ∧ (env.shellSetPos { proposed with rc := R } = R →
            (UpdateAppBarPosition env s hwnd).sys.windowRect hwnd = R)) := by
  constructor
  · intro hw hn hc
    have hsh : scaleHeight height (GetDpiScaleFactor env hwnd)
        = physicalHeight height (env.deviceCaps hwnd) := rfl
    have hwin : (RegisterAppBar env s hwnd height (some e.code)).sys.windowRect hwnd
        = env.shellSetPos
            { hWnd := hwnd, uCallbackMessage := s.g_nextCallbackMsg, uEdge := toUINT e.code,
              rc := specEdgeRect32 e
                (env.shellQueryPos
                  { hWnd := hwnd, uCallbackMessage := s.g_nextCallbackMsg,
                    uEdge := toUINT e.code,
                    rc := specEdgeRect32 e (GetMonitorWorkArea env hwnd)
                      (physicalHeight height (env.deviceCaps hwnd)) })
                (physicalHeight height (env.deviceCaps hwnd)) } := by
      simp [RegisterAppBar, hw, hn, hc, hsh, clampEdge_code, MoveWindow, LONG.add_sub_cancel]
    refine ⟨clampedTo_specEdgeRect32 _ _ _, specEdgeRect32_exact _ _ _, ?_, hwin, ?_, ?_⟩
    · simp [RegisterAppBar, hw, hn, hc, hsh, clampEdge_code]
    · simp [RegisterAppBar, hw, hn, hc, hsh, clampEdge_code]
    · intro hF
      rw [hwin]
      exact hF
  · intro hf hr he
    have hsh : scaleHeight st.height (GetDpiScaleFactor env hwnd)
        = physicalHeight st.height (env.deviceCaps hwnd) := rfl
    have hwin : (UpdateAppBarPosition env s hwnd).sys.windowRect hwnd
        = env.shellSetPos
            { hWnd := hwnd, uCallbackMessage := 0, uEdge := toUINT e.code,
              rc := specEdgeRect32 e
                (env.shellQueryPos
                  { hWnd := hwnd, uCallbackMessage := 0, uEdge := toUINT e.code,
                    rc := specEdgeRect32 e (GetMonitorWorkArea env hwnd)
                      (physicalHeight st.height (env.deviceCaps hwnd)) })
                (physicalHeight st.height (env.deviceCaps hwnd)) } := by
      simp [UpdateAppBarPosition, hf, hr, he, hsh, clampEdge_code, MoveWindow,
        LONG.add_sub_cancel]
    refine ⟨clampedTo_specEdgeRect32 _ _ _, specEdgeRect32_exact _ _ _, ?_, hwin, ?_, ?_⟩
    · simp [UpdateAppBarPosition, hf, hr, he, hsh, clampEdge_code]
    · simp [UpdateAppBarPosition, hf, hr, he, hsh, clampEdge_code]
    · intro hF
      rw [hwin]
      exact hF

/-- C10 at concrete states, at 144 dots per inch with a shell that moves every
side of the proposal at `ABM_QUERYPOS` and moves the rectangle down by 10 at
`ABM_SETPOS`: a registration at the top edge with height 40 (60 pixels), and an
update of window 1 registered at the bottom edge with height 48 (72
pixels). -/
theorem two_pass_clamp_witness :
    (exEnvAdjust.isWindow 1 = true ∧ IsAppBarRegistered exSys 1 = false
      ∧ mapFind exSysOne.g_appbars 1 = some ⟨1, 1280, true, ⟨100, 100, 900, 700⟩, 3, 48⟩)
      ∧ ClampedTo Edge.Top 60 ⟨5, 30, 1913, 71⟩ ⟨5, 30, 1913, 90⟩
      ∧ (RegisterAppBar exEnvAdjust exSys 1 40 (some EDGE_TOP)).events
        = [Event.shell ShellMsg.ABM_NEW ⟨1, 1280, 0, ⟨0, 0, 0, 0⟩⟩,
           Event.shell ShellMsg.ABM_QUERYPOS ⟨1, 1280, 1, ⟨0, 0, 1920, 60⟩⟩,
           Event.shell ShellMsg.ABM_SETPOS ⟨1, 1280, 1, ⟨5, 30, 1913, 90⟩⟩,
           Event.moveWindow 1 5 40 1908 60]
      ∧ (RegisterAppBar exEnvAdjust exSys 1 40 (some EDGE_TOP)).sys.windowRect 1
          = ⟨5, 40, 1913, 100⟩
      ∧ ClampedTo Edge.Bottom 72 ⟨5, 1038, 1913, 1091⟩ ⟨5, 1019, 1913, 1091⟩
      ∧ (UpdateAppBarPosition exEnvAdjust exSysOne 1).events
        = [Event.shell ShellMsg.ABM_QUERYPOS ⟨1, 0, 3, ⟨0, 1008, 1920, 1080⟩⟩,
           Event.shell ShellMsg.ABM_SETPOS ⟨1, 0, 3, ⟨5, 1019, 1913, 1091⟩⟩,
           Event.moveWindow 1 5 1029 1908 72]
      ∧ (UpdateAppBarPosition exEnvAdjust exSysOne 1).ret = UpdateResult.ok 5 1029 1908 72 := by
  have hf : mapFind exSysOne.g_appbars 1 = some ⟨1, 1280, true, ⟨100, 100, 900, 700⟩, 3, 48⟩ := by
    decide
  have hr := (two_pass_clamp exEnvAdjust exSys 1 Edge.Top 40
    ⟨1, 1280, true, ⟨100, 100, 900, 700⟩, 3, 48⟩).1 rfl (by decide) rfl
  have hu := (two_pass_clamp exEnvAdjust exSysOne 1 Edge.Bottom 40
    ⟨1, 1280, true, ⟨100, 100, 900, 700⟩, 3, 48⟩).2 hf rfl (by decide)
  have e1 : physicalHeight 40 (exEnvAdjust.deviceCaps 1) = 60 := by decide
  have e2 : physicalHeight 48 (exEnvAdjust.deviceCaps 1) = 72 := by decide
  refine ⟨⟨rfl, by decide, hf⟩, ?_, hr.2.2.1.trans (by decide), hr.2.2.2.1.trans (by decide),
    ?_, hu.2.2.1.trans (by decide), hu.2.2.2.2.1.trans (by decide)⟩
  · have h1 := hr.1
    simp only [e1] at h1
    have e3 : specEdgeRect32 Edge.Top
        (exEnvAdjust.shellQueryPos
          { hWnd := 1, uCallbackMessage := exSys.g_nextCallbackMsg,
            uEdge := toUINT Edge.Top.code,
            rc := specEdgeRect32 Edge.Top (GetMonitorWorkArea exEnvAdjust 1) 60 }) 60
        = ⟨5, 30, 1913, 90⟩ := by decide
    have e4 : exEnvAdjust.shellQueryPos
          { hWnd := 1, uCallbackMessage := exSys.g_nextCallbackMsg,
            uEdge := toUINT Edge.Top.code,
            rc := specEdgeRect32 Edge.Top (GetMonitorWorkArea exEnvAdjust 1) 60 }
        = ⟨5, 30, 1913, 71⟩ := by decide
    rw [e3, e4] at h1
    exact h1
  · have h1 := hu.1
    simp only [e2] at h1
    have e3 : specEdgeRect32 Edge.Bottom
        (exEnvAdjust.shellQueryPos
          { hWnd := 1, uCallbackMessage := 0, uEdge := toUINT Edge.Bottom.code,
            rc := specEdgeRect32 Edge.Bottom (GetMonitorWorkArea exEnvAdjust 1) 72 }) 72
        = ⟨5, 1019, 1913, 1091⟩ := by decide
    have e4 : exEnvAdjust.shellQueryPos
          { hWnd := 1, uCallbackMessage := 0, uEdge := toUINT Edge.Bottom.code,
            rc := specEdgeRect32 Edge.Bottom (GetMonitorWorkArea exEnvAdjust 1) 72 }
        = ⟨5, 1038, 1913, 1091⟩ := by decide
    rw [e3, e4] at h1
    exact h1

/-- C10 as stated fails, in two ways. At 144 dots per inch, with a shell that
moves the rectangle down by 10 at `ABM_SETPOS`, the rectangle committed by a
registration at the top edge with height 40 is `{5, 30, 1913, 90}` and the
window is moved to, and the caller receives, `{5, 40, 1913, 100}`. With a shell
that answers `ABM_QUERYPOS` with the top 2147483600, a registration at the top
edge with 100 pixels commits the bottom -2147483596, so that bottom minus top
is -4294967196 and not 100. -/
theorem clamp_committed_is_not_final :
    ((RegisterAppBar exEnvAdjust exSys 1 40 (some EDGE_TOP)).events
        = [Event.shell ShellMsg.ABM_NEW ⟨1, 1280, 0, ⟨0, 0, 0, 0⟩⟩,
           Event.shell ShellMsg.ABM_QUERYPOS ⟨1, 1280, 1, ⟨0, 0, 1920, 60⟩⟩,
           Event.shell ShellMsg.ABM_SETPOS ⟨1, 1280, 1, ⟨5, 30, 1913, 90⟩⟩,
           Event.moveWindow 1 5 40 1908 60]
      ∧ (RegisterAppBar exEnvAdjust exSys 1 40 (some EDGE_TOP)).sys.windowRect 1
          = ⟨5, 40, 1913, 100⟩
      ∧ (RegisterAppBar exEnvAdjust exSys 1 40 (some EDGE_TOP)).ret.rect
          = some ⟨5, 40, 1913, 100⟩
      ∧ (⟨5, 40, 1913, 100⟩ : RECT) ≠ ⟨5, 30, 1913, 90⟩)
    ∧ (physicalPixels 100 96 = 100
      ∧ (RegisterAppBar exEnvFar exSys 1 100 (some EDGE_TOP)).events
        = [Event.shell ShellMsg.ABM_NEW ⟨1, 1280, 0, ⟨0, 0, 0, 0⟩⟩,
           Event.shell ShellMsg.ABM_QUERYPOS ⟨1, 1280, 1, ⟨0, 0, 1920, 100⟩⟩,
           Event.shell ShellMsg.ABM_SETPOS
             ⟨1, 1280, 1, ⟨0, 2147483600, 1920, LONG.wrap (-2147483596)⟩⟩,
           Event.moveWindow 1 0 2147483600 1920 100]
      ∧ (LONG.wrap (-2147483596)).val - (2147483600 : LONG).val = -4294967196
      ∧ (LONG.wrap (-2147483596)).val - (2147483600 : LONG).val ≠ 100) := by
  decide

end WinAppBar
